import Mathlib

/-!
Shallow embedding of the mos65xx 6502-family emulator core (Go) for
verification of its natural-language specification.

Machine integers are modelled as `Nat` with explicit wrapping: `u8` is the
`uint8` conversion (mod 2^8), `u16` is the `uint16` conversion (mod 2^16).
Fallible code paths (Go panics: the unreachable addressing-mode branch of
`resolveAddr`, out-of-bounds slice indexing in the built-in RAM/ROM) are
modelled with `Option`.
-/

namespace MOS

set_option maxRecDepth 10000

/-- The `uint8` conversion: wrap modulo 2^8. -/
def u8 (x : Nat) : Nat := x % 256

/-- The `uint16` conversion: wrap modulo 2^16. -/
def u16 (x : Nat) : Nat := x % 65536

/-- Processor status flag `C` (carry), bit 0. -/
def Cf : Nat := 1

/-- Processor status flag `Z` (zero), bit 1. -/
def Zf : Nat := 2

/-- Processor status flag `I` (IRQ disable), bit 2. -/
def If : Nat := 4

/-- Processor status flag `D` (decimal), bit 3. -/
def Df : Nat := 8

/-- Processor status flag `B` (break), bit 4. -/
def Bf : Nat := 16

/-- Processor status flag `U` (unused), bit 5. -/
def Uf : Nat := 32

/-- Processor status flag `V` (overflow), bit 6. -/
def Vf : Nat := 64

/-- Processor status flag `N` (negative), bit 7. -/
def Nf : Nat := 128

/-- Interrupt latch variants (`None`, `NMI`, `IRQ` in the source). -/
inductive Interrupt where
  | none
  | nmi
  | irq
deriving DecidableEq, Repr

/-- CPU registers (`Registers` in the source). All fields hold the value of
the corresponding machine register as a natural number (`PC` is a `uint16`,
the rest are `uint8`). -/
structure Registers where
  PC : Nat
  S : Nat
  P : Nat
  A : Nat
  X : Nat
  Y : Nat
deriving DecidableEq, Repr

/-- `setFlag(mask, flag, set)` from the source: set or clear one status bit.
`mask & ^flag` on `uint8` is `mask &&& (255 - flag)` for a one-bit flag. -/
def setFlag (mask flag : Nat) (set : Bool) : Nat :=
  if set then mask ||| flag else mask &&& (255 ^^^ flag)

/-- `Registers.setZN`: set Z and N from a value. -/
def Registers.setZN (reg : Registers) (value : Nat) : Registers :=
  { reg with P := setFlag (setFlag reg.P Zf (value == 0)) Nf ((value &&& 0x80) != 0) }

/-- `Registers.cmp`: compare two `uint8` values, updating C, Z and N. -/
def Registers.cmp (reg : Registers) (a b : Nat) : Registers :=
  let p1 := setFlag reg.P Cf (decide (a ≥ b))
  let p2 := setFlag p1 Zf (a == b)
  let p3 := setFlag p2 Nf ((u8 (a + 256 - b) &&& 0x80) == 0x80)
  { reg with P := p3 }

/-- `overflow(a, b, r)` from the source: signed overflow predicate of ADC. -/
def overflow (a b r : Nat) : Bool :=
  ((a ^^^ r) &&& (b ^^^ r) &&& 0x80) == 0x80

/-- `underflow(a, b, r)` from the source: signed underflow predicate of SBC. -/
def underflow (a b r : Nat) : Bool :=
  (((a ^^^ b) &&& 0x80) == 0x80) && (((a ^^^ r) &&& 0x80) == 0x80)

/-- Result tuple of the ALU helpers `adc`/`sbc`: result byte and the N, V, Z,
C flag values. -/
structure ALUOut where
  r : Nat
  n : Bool
  v : Bool
  z : Bool
  c : Bool
deriving DecidableEq, Repr

/-- The `adc` calculation from the source. `t` is a `uint16`; it cannot wrap
(it stays below 0x268), so plain `Nat` addition is exact. The BCD branch
adjusts the total in place, exactly as the source reassigns `t`. -/
def adc (a b : Nat) (carry bcd : Bool) : ALUOut :=
  let t0 := a + b + (if carry then 1 else 0)
  let tc : Nat × Bool :=
    if bcd then
      let lo := (a &&& 0x0f) + (b &&& 0x0f) + (if carry then 1 else 0)
      let t1 := if lo > 0x09 then t0 + 0x06 else t0
      let t2 := if t1 > 0x99 then t1 + 0x60 else t1
      (t2, decide (t2 > 0x99))
    else
      (t0, (t0 &&& 0xff00) != 0)
  let r := u8 tc.1
  ⟨r, (r &&& 0x80) == 0x80, overflow a b r, r == 0, tc.2⟩

/-- The `sbc` calculation from the source. `t` is a `uint16` and the
subtractions wrap modulo 2^16; `lo` is a `uint8` and wraps modulo 2^8. -/
def sbc (a b : Nat) (carry bcd : Bool) : ALUOut :=
  let t0 := u16 (a + 65536 - b)
  let t1 := if carry then t0 else u16 (t0 + 65535)
  let t : Nat :=
    if bcd then
      let lo0 := u8 ((a &&& 0x0f) + 256 - (b &&& 0x0f))
      let lo := if carry then lo0 else u8 (lo0 + 255)
      let ta := if (lo &&& 0xf0) != 0 then u16 (t1 + 65536 - 0x06) else t1
      if ta > 0x99 then u16 (ta + 65536 - 0x60) else ta
    else t1
  let r := u8 t
  ⟨r, (r &&& 0x80) == 0x80, underflow a b r, r == 0, decide (t < 0x100)⟩

/-- Interrupt vector `NMIVector = 0xfffa`. -/
def NMIVector : Nat := 0xfffa

/-- Interrupt vector `ResetVector = 0xfffc`. -/
def ResetVector : Nat := 0xfffc

/-- Interrupt vector `IRQVector = 0xfffe`. -/
def IRQVector : Nat := 0xfffe

/-- Addressing mode `Implied` (iota value 0 in the source). -/
def Implied : Nat := 0

/-- Addressing mode `Accumulator`. -/
def Accumulator : Nat := 1

/-- Addressing mode `Immediate`. -/
def Immediate : Nat := 2

/-- Addressing mode `ZeroPage`. -/
def ZeroPage : Nat := 3

/-- Addressing mode `ZeroPageX`. -/
def ZeroPageX : Nat := 4

/-- Addressing mode `ZeroPageY`. -/
def ZeroPageY : Nat := 5

/-- Addressing mode `Relative`. -/
def Relative : Nat := 6

/-- Addressing mode `Absolute`. -/
def Absolute : Nat := 7

/-- Addressing mode `AbsoluteX`. -/
def AbsoluteX : Nat := 8

/-- Addressing mode `AbsoluteY`. -/
def AbsoluteY : Nat := 9

/-- Addressing mode `Indirect`. -/
def Indirect : Nat := 10

/-- Addressing mode `IndexedIndirect` (`(zp,X)`). -/
def IndexedIndirect : Nat := 11

/-- Addressing mode `IndirectIndexed` (`(zp),Y`). -/
def IndirectIndexed : Nat := 12

/-- The `fast` CPU state from the source. The internal RAM and the external
bus are modelled as total functions from addresses to byte values (the source
accesses them through `memory.Memory`, assumed total per the bus contract).
The attached monitor is passed to `Step` as a parameter instead of being a
field, to keep the state type first-order; `addressMode` and `Mnemonic`
values are the `uint8` iota constants of the source. -/
structure Fast where
  reg : Registers
  bus : Nat → Nat
  ram : Nat → Nat
  ramSize : Nat
  interrupt : Interrupt
  cycles : Nat
  halted : Bool
  addressMode : Nat
  hasBCD : Bool
  hasNMI : Bool
  hasIRQ : Bool
  hasReady : Bool
  notReady : Bool

/-- `fast.Fetch`: read a byte from internal RAM (when the address falls below
`ramSize`) or the external bus. The result is a `uint8`. -/
def Fast.Fetch (cpu : Fast) (addr : Nat) : Nat :=
  if u16 addr < cpu.ramSize then u8 (cpu.ram (u16 addr)) else u8 (cpu.bus (u16 addr))

/-- `fast.Store`: write a byte to internal RAM or the external bus. -/
def Fast.Store (cpu : Fast) (addr value : Nat) : Fast :=
  if u16 addr < cpu.ramSize then
    { cpu with ram := fun a => if a = u16 addr then u8 value else cpu.ram a }
  else
    { cpu with bus := fun a => if a = u16 addr then u8 value else cpu.bus a }

/-- `FetchWord`: little-endian 16-bit read through the CPU's `Fetch`. -/
def FetchWord (cpu : Fast) (addr : Nat) : Nat :=
  Fast.Fetch cpu addr ||| (Fast.Fetch cpu (u16 (addr + 1)) <<< 8)

/-- `FetchWordBug`: the source's (unused) page-wrapping word read; transcribed
verbatim, including the fact that the high-byte fetch is OR-ed in without the
`<< 8` shift (only the `uint8(addr+1)` term is shifted). -/
def FetchWordBug (cpu : Fast) (addr : Nat) : Nat :=
  let lo := Fast.Fetch cpu addr
  let hi := Fast.Fetch cpu (addr &&& 0xff00) ||| (u8 (addr + 1) <<< 8)
  lo ||| hi

/-- `fast.Push`: store at `0x0100 | S`, then decrement S (wrapping `uint8`). -/
def Fast.Push (cpu : Fast) (value : Nat) : Fast :=
  let cpu := cpu.Store (0x0100 ||| cpu.reg.S) value
  { cpu with reg := { cpu.reg with S := u8 (cpu.reg.S + 255) } }

/-- `fast.PushWord`: push high byte, then low byte. -/
def Fast.PushWord (cpu : Fast) (value : Nat) : Fast :=
  (cpu.Push (u8 (value >>> 8))).Push (u8 value)

/-- `fast.Pull`: increment S (wrapping `uint8`), then fetch `0x0100 | S`. -/
def Fast.Pull (cpu : Fast) : Fast × Nat :=
  let cpu := { cpu with reg := { cpu.reg with S := u8 (cpu.reg.S + 1) } }
  (cpu, cpu.Fetch (0x0100 ||| cpu.reg.S))

/-- `fast.PullWord`: pull low byte, then high byte. -/
def Fast.PullWord (cpu : Fast) : Fast × Nat :=
  let (cpu, lo) := cpu.Pull
  let (cpu, hi) := cpu.Pull
  (cpu, (hi <<< 8) ||| lo)

/-- `fast.IRQ`: request an interrupt (dropped when the model lacks IRQ). -/
def Fast.IRQ (cpu : Fast) : Fast :=
  if cpu.hasIRQ then { cpu with interrupt := Interrupt.irq } else cpu

/-- `fast.NMI`: request a non-maskable interrupt (dropped when the model
lacks NMI). -/
def Fast.NMI (cpu : Fast) : Fast :=
  if cpu.hasNMI then { cpu with interrupt := Interrupt.nmi } else cpu

/-- `fast.nmi`: service an NMI: push PC and P, set I, load PC from the NMI
vector, add 7 cycles. -/
def Fast.nmiRun (cpu : Fast) : Fast :=
  let cpu := cpu.PushWord cpu.reg.PC
  let cpu := cpu.Push cpu.reg.P
  let cpu := { cpu with reg := { cpu.reg with P := cpu.reg.P ||| If } }
  let cpu := { cpu with reg := { cpu.reg with PC := FetchWord cpu NMIVector } }
  { cpu with cycles := cpu.cycles + 7 }

/-- `fast.irq`: service an IRQ: push PC and P, set I, load PC from the IRQ
vector, add 7 cycles. -/
def Fast.irqRun (cpu : Fast) : Fast :=
  let cpu := cpu.PushWord cpu.reg.PC
  let cpu := cpu.Push cpu.reg.P
  let cpu := { cpu with reg := { cpu.reg with P := cpu.reg.P ||| If } }
  let cpu := { cpu with reg := { cpu.reg with PC := FetchWord cpu IRQVector } }
  { cpu with cycles := cpu.cycles + 7 }

/-- `fast.handleInterrupts`: service the latched interrupt (if any), then
clear the latch. -/
def Fast.handleInterrupts (cpu : Fast) : Fast :=
  let cpu :=
    match cpu.interrupt with
    | Interrupt.nmi => cpu.nmiRun
    | Interrupt.irq => cpu.irqRun
    | Interrupt.none => cpu
  { cpu with interrupt := Interrupt.none }

/-- `differentPage`: do two addresses lie on different 256-byte pages? -/
def differentPage (a b : Nat) : Bool :=
  (a &&& 0xff00) != (b &&& 0xff00)

/-- `fast.resolveAddr`: compute the effective address and page-cross flag for
the current addressing mode. The source's `default: panic(...)` branch is
`none`. -/
def Fast.resolveAddr (cpu : Fast) : Option (Bool × Nat) :=
  match cpu.addressMode with
  | 0 => some (false, 0)
  | 1 => some (false, 0)
  | 2 => some (false, u16 (cpu.reg.PC + 1))
  | 3 => some (false, cpu.Fetch (u16 (cpu.reg.PC + 1)))
  | 4 => some (false, u8 (cpu.Fetch (u16 (cpu.reg.PC + 1)) + cpu.reg.X))
  | 5 => some (false, u8 (cpu.Fetch (u16 (cpu.reg.PC + 1)) + cpu.reg.Y))
  | 6 =>
    let off := cpu.Fetch (u16 (cpu.reg.PC + 1))
    let addr := u16 (cpu.reg.PC + off + 2)
    some (false, if (off &&& 0x80) == 0x80 then u16 (addr + 65536 - 0x0100) else addr)
  | 7 => some (false, FetchWord cpu (u16 (cpu.reg.PC + 1)))
  | 8 =>
    let src := FetchWord cpu (u16 (cpu.reg.PC + 1))
    let addr := u16 (src + cpu.reg.X)
    some (differentPage src addr, addr)
  | 9 =>
    let src := FetchWord cpu (u16 (cpu.reg.PC + 1))
    let addr := u16 (src + cpu.reg.Y)
    some (differentPage src addr, addr)
  | 10 => some (false, FetchWord cpu (FetchWord cpu (u16 (cpu.reg.PC + 1))))
  | 11 =>
    let ptr := u8 (cpu.Fetch (u16 (cpu.reg.PC + 1)) + cpu.reg.X)
    let lo := cpu.Fetch ptr
    let hi := cpu.Fetch ((ptr + 1) &&& 0x00ff)
    some (false, (hi <<< 8) ||| lo)
  | 12 =>
    let ptr := cpu.Fetch (u16 (cpu.reg.PC + 1))
    let lo := cpu.Fetch ptr
    let hi := cpu.Fetch ((ptr + 1) &&& 0x00ff)
    let base := (hi <<< 8) ||| lo
    some (differentPage base (u16 (base + cpu.reg.Y)), u16 (base + cpu.reg.Y))
  | _ => none

/-- `fast.lda`. -/
def Fast.lda (cpu : Fast) (addr : Nat) : Fast :=
  let a := cpu.Fetch addr
  { cpu with reg := ({ cpu.reg with A := a }).setZN a }

/-- `fast.ldx`. -/
def Fast.ldx (cpu : Fast) (addr : Nat) : Fast :=
  let x := cpu.Fetch addr
  { cpu with reg := ({ cpu.reg with X := x }).setZN x }

/-- `fast.ldy`. -/
def Fast.ldy (cpu : Fast) (addr : Nat) : Fast :=
  let y := cpu.Fetch addr
  { cpu with reg := ({ cpu.reg with Y := y }).setZN y }

/-- `fast.sta`. -/
def Fast.sta (cpu : Fast) (addr : Nat) : Fast := cpu.Store addr cpu.reg.A

/-- `fast.stx`. -/
def Fast.stx (cpu : Fast) (addr : Nat) : Fast := cpu.Store addr cpu.reg.X

/-- `fast.sty`. -/
def Fast.sty (cpu : Fast) (addr : Nat) : Fast := cpu.Store addr cpu.reg.Y

/-- `fast.tax`. -/
def Fast.tax (cpu : Fast) (_addr : Nat) : Fast :=
  { cpu with reg := ({ cpu.reg with X := cpu.reg.A }).setZN cpu.reg.A }

/-- `fast.tay`. -/
def Fast.tay (cpu : Fast) (_addr : Nat) : Fast :=
  { cpu with reg := ({ cpu.reg with Y := cpu.reg.A }).setZN cpu.reg.A }

/-- `fast.tsx`. -/
def Fast.tsx (cpu : Fast) (_addr : Nat) : Fast :=
  { cpu with reg := ({ cpu.reg with X := cpu.reg.S }).setZN cpu.reg.S }

/-- `fast.txa`. -/
def Fast.txa (cpu : Fast) (_addr : Nat) : Fast :=
  { cpu with reg := ({ cpu.reg with A := cpu.reg.X }).setZN cpu.reg.X }

/-- `fast.txs` (no flags). -/
def Fast.txs (cpu : Fast) (_addr : Nat) : Fast :=
  { cpu with reg := { cpu.reg with S := cpu.reg.X } }

/-- `fast.tya`. -/
def Fast.tya (cpu : Fast) (_addr : Nat) : Fast :=
  { cpu with reg := ({ cpu.reg with A := cpu.reg.Y }).setZN cpu.reg.Y }

/-- `fast.dec`: decrement memory (wrapping `uint8`). -/
def Fast.dec (cpu : Fast) (addr : Nat) : Fast :=
  let v := u8 (cpu.Fetch addr + 255)
  let cpu := cpu.Store addr v
  { cpu with reg := cpu.reg.setZN v }

/-- `fast.dex`. -/
def Fast.dex (cpu : Fast) (_addr : Nat) : Fast :=
  let x := u8 (cpu.reg.X + 255)
  { cpu with reg := ({ cpu.reg with X := x }).setZN x }

/-- `fast.dey`. -/
def Fast.dey (cpu : Fast) (_addr : Nat) : Fast :=
  let y := u8 (cpu.reg.Y + 255)
  { cpu with reg := ({ cpu.reg with Y := y }).setZN y }

/-- `fast.inc`: increment memory (wrapping `uint8`). -/
def Fast.inc (cpu : Fast) (addr : Nat) : Fast :=
  let v := u8 (cpu.Fetch addr + 1)
  let cpu := cpu.Store addr v
  { cpu with reg := cpu.reg.setZN v }

/-- `fast.inx`. -/
def Fast.inx (cpu : Fast) (_addr : Nat) : Fast :=
  let x := u8 (cpu.reg.X + 1)
  { cpu with reg := ({ cpu.reg with X := x }).setZN x }

/-- `fast.iny`. -/
def Fast.iny (cpu : Fast) (_addr : Nat) : Fast :=
  let y := u8 (cpu.reg.Y + 1)
  { cpu with reg := ({ cpu.reg with Y := y }).setZN y }

/-- `fast.cmp`. -/
def Fast.cmp (cpu : Fast) (addr : Nat) : Fast :=
  { cpu with reg := cpu.reg.cmp cpu.reg.A (cpu.Fetch addr) }

/-- `fast.cpx`. -/
def Fast.cpx (cpu : Fast) (addr : Nat) : Fast :=
  { cpu with reg := cpu.reg.cmp cpu.reg.X (cpu.Fetch addr) }

/-- `fast.cpy`. -/
def Fast.cpy (cpu : Fast) (addr : Nat) : Fast :=
  { cpu with reg := cpu.reg.cmp cpu.reg.Y (cpu.Fetch addr) }

/-- `fast.clc`. -/
def Fast.clc (cpu : Fast) (_addr : Nat) : Fast :=
  { cpu with reg := { cpu.reg with P := cpu.reg.P &&& (255 ^^^ Cf) } }

/-- `fast.cld`. -/
def Fast.cld (cpu : Fast) (_addr : Nat) : Fast :=
  { cpu with reg := { cpu.reg with P := cpu.reg.P &&& (255 ^^^ Df) } }

/-- `fast.cli`. -/
def Fast.cli (cpu : Fast) (_addr : Nat) : Fast :=
  { cpu with reg := { cpu.reg with P := cpu.reg.P &&& (255 ^^^ If) } }

/-- `fast.clv`. -/
def Fast.clv (cpu : Fast) (_addr : Nat) : Fast :=
  { cpu with reg := { cpu.reg with P := cpu.reg.P &&& (255 ^^^ Vf) } }

/-- `fast.sec`. -/
def Fast.sec (cpu : Fast) (_addr : Nat) : Fast :=
  { cpu with reg := { cpu.reg with P := cpu.reg.P ||| Cf } }

/-- `fast.sed`. -/
def Fast.sed (cpu : Fast) (_addr : Nat) : Fast :=
  { cpu with reg := { cpu.reg with P := cpu.reg.P ||| Df } }

/-- `fast.sei`. -/
def Fast.sei (cpu : Fast) (_addr : Nat) : Fast :=
  { cpu with reg := { cpu.reg with P := cpu.reg.P ||| If } }

/-- `fast.and`. -/
def Fast.and (cpu : Fast) (addr : Nat) : Fast :=
  let a := cpu.reg.A &&& cpu.Fetch addr
  { cpu with reg := ({ cpu.reg with A := a }).setZN a }

/-- `fast.eor`. -/
def Fast.eor (cpu : Fast) (addr : Nat) : Fast :=
  let a := cpu.reg.A ^^^ cpu.Fetch addr
  { cpu with reg := ({ cpu.reg with A := a }).setZN a }

/-- `fast.ora`. -/
def Fast.ora (cpu : Fast) (addr : Nat) : Fast :=
  let a := cpu.reg.A ||| cpu.Fetch addr
  { cpu with reg := ({ cpu.reg with A := a }).setZN a }

/-- `fast.bit`. -/
def Fast.bit (cpu : Fast) (addr : Nat) : Fast :=
  let v := cpu.Fetch addr
  let p1 := setFlag cpu.reg.P Vf ((v &&& 0x40) == 0x40)
  let p2 := setFlag p1 Nf ((v &&& 0x80) == 0x80)
  let p3 := setFlag p2 Zf ((v &&& cpu.reg.A) == 0)
  { cpu with reg := { cpu.reg with P := p3 } }

/-- `fast.asl`: shift left, on A in accumulator mode and on memory
otherwise. -/
def Fast.asl (cpu : Fast) (addr : Nat) : Fast :=
  if cpu.addressMode = 1 then
    let v := cpu.reg.A
    let p := setFlag cpu.reg.P Cf (((v >>> 7) &&& 1) == 1)
    let a := u8 (v <<< 1)
    { cpu with reg := ({ cpu.reg with P := p, A := a }).setZN a }
  else
    let v := cpu.Fetch addr
    let p := setFlag cpu.reg.P Cf (((v >>> 7) &&& 1) == 1)
    let v2 := u8 (v <<< 1)
    let cpu := ({ cpu with reg := { cpu.reg with P := p } }).Store addr v2
    { cpu with reg := cpu.reg.setZN v2 }

/-- `fast.lsr`: shift right, on A in accumulator mode and on memory
otherwise. -/
def Fast.lsr (cpu : Fast) (addr : Nat) : Fast :=
  if cpu.addressMode = 1 then
    let v := cpu.reg.A
    let p := setFlag cpu.reg.P Cf ((v &&& 1) == 1)
    let a := v >>> 1
    { cpu with reg := ({ cpu.reg with P := p, A := a }).setZN a }
  else
    let v := cpu.Fetch addr
    let p := setFlag cpu.reg.P Cf ((v &&& 1) == 1)
    let v2 := v >>> 1
    let cpu := ({ cpu with reg := { cpu.reg with P := p } }).Store addr v2
    { cpu with reg := cpu.reg.setZN v2 }

/-- `fast.rol`: rotate left through carry. -/
def Fast.rol (cpu : Fast) (addr : Nat) : Fast :=
  let carry := if (cpu.reg.P &&& Cf) == Cf then 1 else 0
  let v := if cpu.addressMode = 1 then cpu.reg.A else cpu.Fetch addr
  let p := setFlag cpu.reg.P Cf ((v >>> 7) == 1)
  let v2 := u8 ((v <<< 1) ||| carry)
  let cpu := { cpu with reg := ({ cpu.reg with P := p }).setZN v2 }
  if cpu.addressMode = 1 then
    { cpu with reg := { cpu.reg with A := v2 } }
  else
    cpu.Store addr v2

/-- `fast.ror`: rotate right through carry. -/
def Fast.ror (cpu : Fast) (addr : Nat) : Fast :=
  let carry := if (cpu.reg.P &&& Cf) == Cf then 0x80 else 0
  let v := if cpu.addressMode = 1 then cpu.reg.A else cpu.Fetch addr
  let p := setFlag cpu.reg.P Cf ((v &&& 1) == 1)
  let v2 := (v >>> 1) ||| carry
  let cpu := { cpu with reg := ({ cpu.reg with P := p }).setZN v2 }
  if cpu.addressMode = 1 then
    { cpu with reg := { cpu.reg with A := v2 } }
  else
    cpu.Store addr v2

/-- `fast.adc`: add with carry through the `adc` calculation; BCD only when
the D flag is set and the model has BCD. -/
def Fast.adc (cpu : Fast) (addr : Nat) : Fast :=
  let out := MOS.adc cpu.reg.A (cpu.Fetch addr) ((cpu.reg.P &&& Cf) == Cf)
    (((cpu.reg.P &&& Df) == Df) && cpu.hasBCD)
  let p1 := setFlag cpu.reg.P Nf out.n
  let p2 := setFlag p1 Vf out.v
  let p3 := setFlag p2 Zf out.z
  let p4 := setFlag p3 Cf out.c
  { cpu with reg := { cpu.reg with A := out.r, P := p4 } }

/-- `fast.sbc`: subtract with carry through the `sbc` calculation. -/
def Fast.sbc (cpu : Fast) (addr : Nat) : Fast :=
  let out := MOS.sbc cpu.reg.A (cpu.Fetch addr) ((cpu.reg.P &&& Cf) == Cf)
    (((cpu.reg.P &&& Df) == Df) && cpu.hasBCD)
  let p1 := setFlag cpu.reg.P Nf out.n
  let p2 := setFlag p1 Vf out.v
  let p3 := setFlag p2 Zf out.z
  let p4 := setFlag p3 Cf out.c
  { cpu with reg := { cpu.reg with A := out.r, P := p4 } }

/-- `fast.branch`: taken branch: add a cycle, another on page cross, retarget
PC. -/
def Fast.branch (cpu : Fast) (pc : Nat) : Fast :=
  let cpu := { cpu with cycles := cpu.cycles + 1 }
  let cpu :=
    if differentPage cpu.reg.PC pc then { cpu with cycles := cpu.cycles + 1 } else cpu
  { cpu with reg := { cpu.reg with PC := pc } }

/-- `fast.bcc`. -/
def Fast.bcc (cpu : Fast) (addr : Nat) : Fast :=
  if (cpu.reg.P &&& Cf) == 0 then cpu.branch addr else cpu

/-- `fast.bcs`. -/
def Fast.bcs (cpu : Fast) (addr : Nat) : Fast :=
  if (cpu.reg.P &&& Cf) == Cf then cpu.branch addr else cpu

/-- `fast.bne`. -/
def Fast.bne (cpu : Fast) (addr : Nat) : Fast :=
  if (cpu.reg.P &&& Zf) == 0 then cpu.branch addr else cpu

/-- `fast.beq`. -/
def Fast.beq (cpu : Fast) (addr : Nat) : Fast :=
  if (cpu.reg.P &&& Zf) == Zf then cpu.branch addr else cpu

/-- `fast.bpl`. -/
def Fast.bpl (cpu : Fast) (addr : Nat) : Fast :=
  if (cpu.reg.P &&& Nf) == 0 then cpu.branch addr else cpu

/-- `fast.bmi`. -/
def Fast.bmi (cpu : Fast) (addr : Nat) : Fast :=
  if (cpu.reg.P &&& Nf) == Nf then cpu.branch addr else cpu

/-- `fast.bvc`. -/
def Fast.bvc (cpu : Fast) (addr : Nat) : Fast :=
  if (cpu.reg.P &&& Vf) == 0 then cpu.branch addr else cpu

/-- `fast.bvs`. -/
def Fast.bvs (cpu : Fast) (addr : Nat) : Fast :=
  if (cpu.reg.P &&& Vf) == Vf then cpu.branch addr else cpu

/-- `fast.jmp`. -/
def Fast.jmp (cpu : Fast) (addr : Nat) : Fast :=
  { cpu with reg := { cpu.reg with PC := addr } }

/-- `fast.jsr`: push PC-1 then jump. -/
def Fast.jsr (cpu : Fast) (addr : Nat) : Fast :=
  let cpu := cpu.PushWord (u16 (cpu.reg.PC + 65535))
  { cpu with reg := { cpu.reg with PC := addr } }

/-- `fast.rti`: restore P (B cleared, U set) and PC from the stack. -/
def Fast.rti (cpu : Fast) (_addr : Nat) : Fast :=
  let (cpu, p) := cpu.Pull
  let cpu := { cpu with reg := { cpu.reg with P := (p &&& 0xef) ||| 0x20 } }
  let (cpu, pc) := cpu.PullWord
  { cpu with reg := { cpu.reg with PC := pc } }

/-- `fast.rts`: PC from the stack plus one. -/
def Fast.rts (cpu : Fast) (_addr : Nat) : Fast :=
  let (cpu, pc) := cpu.PullWord
  { cpu with reg := { cpu.reg with PC := u16 (pc + 1) } }

/-- `fast.brk`: push PC+1 and P|B, set I, load PC from the IRQ vector. -/
def Fast.brk (cpu : Fast) (_addr : Nat) : Fast :=
  let cpu := cpu.PushWord (u16 (cpu.reg.PC + 1))
  let cpu := cpu.Push (cpu.reg.P ||| 0x10)
  let cpu := { cpu with reg := { cpu.reg with P := cpu.reg.P ||| If } }
  { cpu with reg := { cpu.reg with PC := FetchWord cpu IRQVector } }

/-- `fast.pha`. -/
def Fast.pha (cpu : Fast) (_addr : Nat) : Fast := cpu.Push cpu.reg.A

/-- `fast.php`: pushed copy has B set. -/
def Fast.php (cpu : Fast) (_addr : Nat) : Fast := cpu.Push (cpu.reg.P ||| Bf)

/-- `fast.pla`. -/
def Fast.pla (cpu : Fast) (_addr : Nat) : Fast :=
  let (cpu, a) := cpu.Pull
  { cpu with reg := ({ cpu.reg with A := a }).setZN a }

/-- `fast.plp`: restore P with B cleared and U set. -/
def Fast.plp (cpu : Fast) (_addr : Nat) : Fast :=
  let (cpu, p) := cpu.Pull
  { cpu with reg := { cpu.reg with P := (p &&& 0xef) ||| 0x20 } }

/-- `fast.nop`. -/
def Fast.nop (cpu : Fast) (_addr : Nat) : Fast := cpu

/-- `fast.hlt`: roll PC back one byte and set the sticky halted flag. -/
def Fast.hlt (cpu : Fast) (_addr : Nat) : Fast :=
  { cpu with reg := { cpu.reg with PC := u16 (cpu.reg.PC + 65535) }, halted := true }

/-- `fast.alr` (undocumented): AND, then LSR on A. -/
def Fast.alr (cpu : Fast) (addr : Nat) : Fast :=
  let cpu := cpu.and addr
  let cpu := { cpu with addressMode := 1 }
  cpu.lsr addr

/-- `fast.anc` (undocumented): AND, then copy N into C. -/
def Fast.anc (cpu : Fast) (addr : Nat) : Fast :=
  let a := cpu.reg.A &&& cpu.Fetch addr
  let reg := ({ cpu.reg with A := a }).setZN a
  { cpu with reg := { reg with P := setFlag reg.P Cf ((reg.P &&& Nf) == Nf) } }

/-- `fast.arr` (undocumented): AND, ROR on A, then C from bit 6 and V from
bit 5 XOR bit 6. -/
def Fast.arr (cpu : Fast) (addr : Nat) : Fast :=
  let cpu := cpu.and addr
  let cpu := { cpu with addressMode := 1 }
  let cpu := cpu.ror addr
  let b5 := ((cpu.reg.A >>> 5) &&& 1) == 1
  let b6 := ((cpu.reg.A >>> 6) &&& 1) == 1
  let p1 := setFlag cpu.reg.P Cf b6
  let p2 := setFlag p1 Vf (b5 != b6)
  { cpu with reg := { cpu.reg with P := p2 } }

/-- `fast.axs` (undocumented): X = (A & X) - M with compare-style carry. -/
def Fast.axs (cpu : Fast) (addr : Nat) : Fast :=
  let a := cpu.reg.A &&& cpu.reg.X
  let v := cpu.Fetch addr
  let x := u8 (a + 256 - v)
  let reg := { cpu.reg with X := x }
  let reg := { reg with P := setFlag reg.P Cf (decide (a ≥ v)) }
  { cpu with reg := reg.setZN x }

/-- `fast.lax` (undocumented): LDA then TAX. -/
def Fast.lax (cpu : Fast) (addr : Nat) : Fast :=
  let a := cpu.Fetch addr
  { cpu with reg := ({ cpu.reg with A := a, X := a }).setZN a }

/-- `fast.las` (undocumented): M & S into A, X and S. -/
def Fast.las (cpu : Fast) (addr : Nat) : Fast :=
  let v := cpu.Fetch addr &&& cpu.reg.S
  { cpu with reg := ({ cpu.reg with S := v, X := v, A := v }).setZN v }

/-- `fast.sax` (undocumented): store A & X. -/
def Fast.sax (cpu : Fast) (addr : Nat) : Fast :=
  cpu.Store addr (cpu.reg.A &&& cpu.reg.X)

/-- `fast.dcp` (undocumented): DEC then CMP. -/
def Fast.dcp (cpu : Fast) (addr : Nat) : Fast := (cpu.dec addr).cmp addr

/-- `fast.isc` (undocumented): INC then SBC. -/
def Fast.isc (cpu : Fast) (addr : Nat) : Fast := (cpu.inc addr).sbc addr

/-- `fast.rla` (undocumented): ROL then AND. -/
def Fast.rla (cpu : Fast) (addr : Nat) : Fast := (cpu.rol addr).and addr

/-- `fast.slo` (undocumented): ASL then ORA. -/
def Fast.slo (cpu : Fast) (addr : Nat) : Fast := (cpu.asl addr).ora addr

/-- `fast.sre` (undocumented): LSR then EOR. -/
def Fast.sre (cpu : Fast) (addr : Nat) : Fast := (cpu.lsr addr).eor addr

/-- `fast.rra` (undocumented): ROR then ADC. -/
def Fast.rra (cpu : Fast) (addr : Nat) : Fast := (cpu.ror addr).adc addr

/-- `fast.ahx` (undocumented): store (high(addr)+1) & A & X. -/
def Fast.ahx (cpu : Fast) (addr : Nat) : Fast :=
  cpu.Store addr (u8 (u8 (addr >>> 8) + 1) &&& cpu.reg.A &&& cpu.reg.X)

/-- `fast.shx` (undocumented): store (high(addr)+1) & X. -/
def Fast.shx (cpu : Fast) (addr : Nat) : Fast :=
  cpu.Store addr (u8 (u8 (addr >>> 8) + 1) &&& cpu.reg.X)

/-- `fast.shy` (undocumented): store (high(addr)+1) & Y. -/
def Fast.shy (cpu : Fast) (addr : Nat) : Fast :=
  cpu.Store addr (u8 (u8 (addr >>> 8) + 1) &&& cpu.reg.Y)

/-- `fast.tas` (undocumented): S = A & X, with a partial page-cross guard on
the store. -/
def Fast.tas (cpu : Fast) (addr : Nat) : Fast :=
  let cpu := { cpu with reg := { cpu.reg with S := cpu.reg.A &&& cpu.reg.X } }
  let v := (cpu.reg.S &&& ((addr >>> 8) + 1)) &&& 0xff
  let t := u16 (addr + 65536 - cpu.reg.Y) &&& 0xff
  if cpu.reg.Y + t ≤ 0xff then cpu.Store addr (u8 v)
  else cpu.Store addr (cpu.Fetch addr)

/-- `fast.xaa` (undocumented): A = X & M. -/
def Fast.xaa (cpu : Fast) (addr : Nat) : Fast :=
  let a := cpu.reg.X &&& cpu.Fetch addr
  { cpu with reg := ({ cpu.reg with A := a }).setZN a }

/-- Mnemonic `ADC` (iota value 0). -/
def ADC : Nat := 0

/-- Mnemonic `AND` (iota value 1). -/
def AND : Nat := 1

/-- Mnemonic `ASL` (iota value 2). -/
def ASL : Nat := 2

/-- Mnemonic `BCC` (iota value 3). -/
def BCC : Nat := 3

/-- Mnemonic `BCS` (iota value 4). -/
def BCS : Nat := 4

/-- Mnemonic `BEQ` (iota value 5). -/
def BEQ : Nat := 5

/-- Mnemonic `BIT` (iota value 6). -/
def BIT : Nat := 6

/-- Mnemonic `BMI` (iota value 7). -/
def BMI : Nat := 7

/-- Mnemonic `BNE` (iota value 8). -/
def BNE : Nat := 8

/-- Mnemonic `BPL` (iota value 9). -/
def BPL : Nat := 9

/-- Mnemonic `BRK` (iota value 10). -/
def BRK : Nat := 10

/-- Mnemonic `BVC` (iota value 11). -/
def BVC : Nat := 11

/-- Mnemonic `BVS` (iota value 12). -/
def BVS : Nat := 12

/-- Mnemonic `CLC` (iota value 13). -/
def CLC : Nat := 13

/-- Mnemonic `CLD` (iota value 14). -/
def CLD : Nat := 14

/-- Mnemonic `CLI` (iota value 15). -/
def CLI : Nat := 15

/-- Mnemonic `CLV` (iota value 16). -/
def CLV : Nat := 16

/-- Mnemonic `CMP` (iota value 17). -/
def CMP : Nat := 17

/-- Mnemonic `CPX` (iota value 18). -/
def CPX : Nat := 18

/-- Mnemonic `CPY` (iota value 19). -/
def CPY : Nat := 19

/-- Mnemonic `DEC` (iota value 20). -/
def DEC : Nat := 20

/-- Mnemonic `DEX` (iota value 21). -/
def DEX : Nat := 21

/-- Mnemonic `DEY` (iota value 22). -/
def DEY : Nat := 22

/-- Mnemonic `EOR` (iota value 23). -/
def EOR : Nat := 23

/-- Mnemonic `INC` (iota value 24). -/
def INC : Nat := 24

/-- Mnemonic `INX` (iota value 25). -/
def INX : Nat := 25

/-- Mnemonic `INY` (iota value 26). -/
def INY : Nat := 26

/-- Mnemonic `JMP` (iota value 27). -/
def JMP : Nat := 27

/-- Mnemonic `JSR` (iota value 28). -/
def JSR : Nat := 28

/-- Mnemonic `LDA` (iota value 29). -/
def LDA : Nat := 29

/-- Mnemonic `LDX` (iota value 30). -/
def LDX : Nat := 30

/-- Mnemonic `LDY` (iota value 31). -/
def LDY : Nat := 31

/-- Mnemonic `LSR` (iota value 32). -/
def LSR : Nat := 32

/-- Mnemonic `NOP` (iota value 33). -/
def NOP : Nat := 33

/-- Mnemonic `ORA` (iota value 34). -/
def ORA : Nat := 34

/-- Mnemonic `PHA` (iota value 35). -/
def PHA : Nat := 35

/-- Mnemonic `PHP` (iota value 36). -/
def PHP : Nat := 36

/-- Mnemonic `PLA` (iota value 37). -/
def PLA : Nat := 37

/-- Mnemonic `PLP` (iota value 38). -/
def PLP : Nat := 38

/-- Mnemonic `ROL` (iota value 39). -/
def ROL : Nat := 39

/-- Mnemonic `ROR` (iota value 40). -/
def ROR : Nat := 40

/-- Mnemonic `RTI` (iota value 41). -/
def RTI : Nat := 41

/-- Mnemonic `RTS` (iota value 42). -/
def RTS : Nat := 42

/-- Mnemonic `SBC` (iota value 43). -/
def SBC : Nat := 43

/-- Mnemonic `SEC` (iota value 44). -/
def SEC : Nat := 44

/-- Mnemonic `SED` (iota value 45). -/
def SED : Nat := 45

/-- Mnemonic `SEI` (iota value 46). -/
def SEI : Nat := 46

/-- Mnemonic `STA` (iota value 47). -/
def STA : Nat := 47

/-- Mnemonic `STX` (iota value 48). -/
def STX : Nat := 48

/-- Mnemonic `STY` (iota value 49). -/
def STY : Nat := 49

/-- Mnemonic `TAX` (iota value 50). -/
def TAX : Nat := 50

/-- Mnemonic `TAY` (iota value 51). -/
def TAY : Nat := 51

/-- Mnemonic `TSX` (iota value 52). -/
def TSX : Nat := 52

/-- Mnemonic `TXA` (iota value 53). -/
def TXA : Nat := 53

/-- Mnemonic `TXS` (iota value 54). -/
def TXS : Nat := 54

/-- Mnemonic `TYA` (iota value 55). -/
def TYA : Nat := 55

/-- Mnemonic `HLT` (iota value 56). -/
def HLT : Nat := 56

/-- Mnemonic `LAX` (iota value 57). -/
def LAX : Nat := 57

/-- Mnemonic `SAX` (iota value 58). -/
def SAX : Nat := 58

/-- Mnemonic `DCP` (iota value 59). -/
def DCP : Nat := 59

/-- Mnemonic `ISC` (iota value 60). -/
def ISC : Nat := 60

/-- Mnemonic `RLA` (iota value 61). -/
def RLA : Nat := 61

/-- Mnemonic `RRA` (iota value 62). -/
def RRA : Nat := 62

/-- Mnemonic `SLO` (iota value 63). -/
def SLO : Nat := 63

/-- Mnemonic `SRE` (iota value 64). -/
def SRE : Nat := 64

/-- Mnemonic `ANC` (iota value 65). -/
def ANC : Nat := 65

/-- Mnemonic `ALR` (iota value 66). -/
def ALR : Nat := 66

/-- Mnemonic `ARR` (iota value 67). -/
def ARR : Nat := 67

/-- Mnemonic `XAA` (iota value 68). -/
def XAA : Nat := 68

/-- Mnemonic `AHX` (iota value 69). -/
def AHX : Nat := 69

/-- Mnemonic `TAS` (iota value 70). -/
def TAS : Nat := 70

/-- Mnemonic `SHX` (iota value 71). -/
def SHX : Nat := 71

/-- Mnemonic `SHY` (iota value 72). -/
def SHY : Nat := 72

/-- Mnemonic `LAS` (iota value 73). -/
def LAS : Nat := 73

/-- Mnemonic `AXS` (iota value 74). -/
def AXS : Nat := 74


/-- An opcode descriptor (`opcode` in the source): mnemonic, instruction
size, base cycles, page-cross penalty cycles, addressing mode. Mnemonic and
mode are the source's `uint8` iota constants. -/
structure Opcode where
  Mnemonic : Nat
  Size : Nat
  Cycles : Nat
  PageCrossCycles : Nat
  Mode : Nat
deriving DecidableEq, Repr

/-- Opcode table rows 0x00-0x0f. -/
def opcodes0 : List Opcode := [
  ⟨BRK, 1, 7, 0, Implied⟩,
  ⟨ORA, 2, 6, 0, IndexedIndirect⟩,
  ⟨HLT, 1, 0, 0, Implied⟩,
  ⟨SLO, 2, 8, 0, IndexedIndirect⟩,
  ⟨NOP, 2, 3, 0, ZeroPage⟩,
  ⟨ORA, 2, 3, 0, ZeroPage⟩,
  ⟨ASL, 2, 5, 0, ZeroPage⟩,
  ⟨SLO, 2, 5, 0, ZeroPage⟩,
  ⟨PHP, 1, 3, 0, Implied⟩,
  ⟨ORA, 2, 2, 0, Immediate⟩,
  ⟨ASL, 1, 2, 0, Accumulator⟩,
  ⟨ANC, 2, 2, 0, Immediate⟩,
  ⟨NOP, 3, 4, 0, Absolute⟩,
  ⟨ORA, 3, 4, 0, Absolute⟩,
  ⟨ASL, 3, 6, 0, Absolute⟩,
  ⟨SLO, 3, 6, 0, Absolute⟩]

/-- Opcode table rows 0x10-0x1f. -/
def opcodes1 : List Opcode := [
  ⟨BPL, 2, 2, 0, Relative⟩,
  ⟨ORA, 2, 5, 1, IndirectIndexed⟩,
  ⟨HLT, 1, 0, 0, Implied⟩,
  ⟨SLO, 2, 8, 0, IndirectIndexed⟩,
  ⟨NOP, 2, 4, 0, ZeroPageX⟩,
  ⟨ORA, 2, 4, 0, ZeroPageX⟩,
  ⟨ASL, 2, 6, 0, ZeroPageX⟩,
  ⟨SLO, 2, 6, 0, ZeroPageX⟩,
  ⟨CLC, 1, 2, 0, Implied⟩,
  ⟨ORA, 3, 4, 1, AbsoluteY⟩,
  ⟨NOP, 1, 2, 0, Implied⟩,
  ⟨SLO, 3, 7, 0, AbsoluteY⟩,
  ⟨NOP, 3, 4, 1, AbsoluteX⟩,
  ⟨ORA, 3, 4, 1, AbsoluteX⟩,
  ⟨ASL, 3, 7, 0, AbsoluteX⟩,
  ⟨SLO, 3, 7, 0, AbsoluteX⟩]

/-- Opcode table rows 0x20-0x2f. -/
def opcodes2 : List Opcode := [
  ⟨JSR, 3, 6, 0, Absolute⟩,
  ⟨AND, 2, 6, 0, IndexedIndirect⟩,
  ⟨HLT, 1, 0, 0, Implied⟩,
  ⟨RLA, 2, 8, 0, IndexedIndirect⟩,
  ⟨BIT, 2, 3, 0, ZeroPage⟩,
  ⟨AND, 2, 3, 0, ZeroPage⟩,
  ⟨ROL, 2, 5, 0, ZeroPage⟩,
  ⟨RLA, 2, 5, 0, ZeroPage⟩,
  ⟨PLP, 1, 4, 0, Implied⟩,
  ⟨AND, 2, 2, 0, Immediate⟩,
  ⟨ROL, 1, 2, 0, Accumulator⟩,
  ⟨ANC, 2, 2, 0, Immediate⟩,
  ⟨BIT, 3, 4, 0, Absolute⟩,
  ⟨AND, 3, 4, 0, Absolute⟩,
  ⟨ROL, 3, 6, 0, Absolute⟩,
  ⟨RLA, 3, 6, 0, Absolute⟩]

/-- Opcode table rows 0x30-0x3f. -/
def opcodes3 : List Opcode := [
  ⟨BMI, 2, 2, 0, Relative⟩,
  ⟨AND, 2, 5, 1, IndirectIndexed⟩,
  ⟨HLT, 1, 0, 0, Implied⟩,
  ⟨RLA, 2, 8, 0, IndirectIndexed⟩,
  ⟨NOP, 2, 4, 0, ZeroPageX⟩,
  ⟨AND, 2, 4, 0, ZeroPageX⟩,
  ⟨ROL, 2, 6, 0, ZeroPageX⟩,
  ⟨RLA, 2, 6, 0, ZeroPageX⟩,
  ⟨SEC, 1, 2, 0, Implied⟩,
  ⟨AND, 3, 4, 1, AbsoluteY⟩,
  ⟨NOP, 1, 2, 0, Implied⟩,
  ⟨RLA, 3, 7, 0, AbsoluteY⟩,
  ⟨NOP, 3, 4, 1, AbsoluteX⟩,
  ⟨AND, 3, 4, 1, AbsoluteX⟩,
  ⟨ROL, 3, 7, 0, AbsoluteX⟩,
  ⟨RLA, 3, 7, 0, AbsoluteX⟩]

/-- Opcode table rows 0x40-0x4f. -/
def opcodes4 : List Opcode := [
  ⟨RTI, 1, 6, 0, Implied⟩,
  ⟨EOR, 2, 6, 0, IndexedIndirect⟩,
  ⟨HLT, 1, 0, 0, Implied⟩,
  ⟨SRE, 2, 8, 0, IndexedIndirect⟩,
  ⟨NOP, 2, 3, 0, ZeroPage⟩,
  ⟨EOR, 2, 3, 0, ZeroPage⟩,
  ⟨LSR, 2, 5, 0, ZeroPage⟩,
  ⟨SRE, 2, 5, 0, ZeroPage⟩,
  ⟨PHA, 1, 3, 0, Implied⟩,
  ⟨EOR, 2, 2, 0, Immediate⟩,
  ⟨LSR, 1, 2, 0, Accumulator⟩,
  ⟨ALR, 2, 2, 0, Immediate⟩,
  ⟨JMP, 3, 3, 0, Absolute⟩,
  ⟨EOR, 3, 4, 0, Absolute⟩,
  ⟨LSR, 3, 6, 0, Absolute⟩,
  ⟨SRE, 3, 6, 0, Absolute⟩]

/-- Opcode table rows 0x50-0x5f. -/
def opcodes5 : List Opcode := [
  ⟨BVC, 2, 2, 0, Relative⟩,
  ⟨EOR, 2, 5, 1, IndirectIndexed⟩,
  ⟨HLT, 1, 0, 0, Implied⟩,
  ⟨SRE, 2, 8, 0, IndirectIndexed⟩,
  ⟨NOP, 2, 4, 0, ZeroPageX⟩,
  ⟨EOR, 2, 4, 0, ZeroPageX⟩,
  ⟨LSR, 2, 6, 0, ZeroPageX⟩,
  ⟨SRE, 2, 6, 0, ZeroPageX⟩,
  ⟨CLI, 1, 2, 0, Implied⟩,
  ⟨EOR, 3, 4, 1, AbsoluteY⟩,
  ⟨NOP, 1, 2, 0, Implied⟩,
  ⟨SRE, 3, 7, 0, AbsoluteY⟩,
  ⟨NOP, 3, 4, 1, AbsoluteX⟩,
  ⟨EOR, 3, 4, 1, AbsoluteX⟩,
  ⟨LSR, 3, 7, 0, AbsoluteX⟩,
  ⟨SRE, 3, 7, 0, AbsoluteX⟩]

/-- Opcode table rows 0x60-0x6f. -/
def opcodes6 : List Opcode := [
  ⟨RTS, 1, 6, 0, Implied⟩,
  ⟨ADC, 2, 6, 0, IndexedIndirect⟩,
  ⟨HLT, 1, 0, 0, Implied⟩,
  ⟨RRA, 2, 8, 0, IndexedIndirect⟩,
  ⟨NOP, 2, 3, 0, ZeroPage⟩,
  ⟨ADC, 2, 3, 0, ZeroPage⟩,
  ⟨ROR, 2, 5, 0, ZeroPage⟩,
  ⟨RRA, 2, 5, 0, ZeroPage⟩,
  ⟨PLA, 1, 4, 0, Implied⟩,
  ⟨ADC, 2, 2, 0, Immediate⟩,
  ⟨ROR, 1, 2, 0, Accumulator⟩,
  ⟨ARR, 2, 2, 0, Immediate⟩,
  ⟨JMP, 3, 5, 0, Indirect⟩,
  ⟨ADC, 3, 4, 0, Absolute⟩,
  ⟨ROR, 3, 6, 0, Absolute⟩,
  ⟨RRA, 3, 6, 0, Absolute⟩]

/-- Opcode table rows 0x70-0x7f. -/
def opcodes7 : List Opcode := [
  ⟨BVS, 2, 2, 0, Relative⟩,
  ⟨ADC, 2, 5, 1, IndirectIndexed⟩,
  ⟨HLT, 1, 0, 0, Implied⟩,
  ⟨RRA, 2, 8, 0, IndirectIndexed⟩,
  ⟨NOP, 2, 4, 0, ZeroPageX⟩,
  ⟨ADC, 2, 4, 0, ZeroPageX⟩,
  ⟨ROR, 2, 6, 0, ZeroPageX⟩,
  ⟨RRA, 2, 6, 0, ZeroPageX⟩,
  ⟨SEI, 1, 2, 0, Implied⟩,
  ⟨ADC, 3, 4, 1, AbsoluteY⟩,
  ⟨NOP, 1, 2, 0, Implied⟩,
  ⟨RRA, 3, 7, 0, AbsoluteY⟩,
  ⟨NOP, 3, 4, 1, AbsoluteX⟩,
  ⟨ADC, 3, 4, 1, AbsoluteX⟩,
  ⟨ROR, 3, 7, 0, AbsoluteX⟩,
  ⟨RRA, 3, 7, 0, AbsoluteX⟩]

/-- Opcode table rows 0x80-0x8f. -/
def opcodes8 : List Opcode := [
  ⟨NOP, 2, 2, 0, Immediate⟩,
  ⟨STA, 2, 6, 0, IndexedIndirect⟩,
  ⟨NOP, 2, 2, 0, Immediate⟩,
  ⟨SAX, 2, 6, 0, IndexedIndirect⟩,
  ⟨STY, 2, 3, 0, ZeroPage⟩,
  ⟨STA, 2, 3, 0, ZeroPage⟩,
  ⟨STX, 2, 3, 0, ZeroPage⟩,
  ⟨SAX, 2, 3, 0, ZeroPage⟩,
  ⟨DEY, 1, 2, 0, Implied⟩,
  ⟨NOP, 2, 2, 0, Immediate⟩,
  ⟨TXA, 1, 2, 0, Implied⟩,
  ⟨XAA, 2, 2, 0, Immediate⟩,
  ⟨STY, 3, 4, 0, Absolute⟩,
  ⟨STA, 3, 4, 0, Absolute⟩,
  ⟨STX, 3, 4, 0, Absolute⟩,
  ⟨SAX, 3, 4, 0, Absolute⟩]

/-- Opcode table rows 0x90-0x9f. -/
def opcodes9 : List Opcode := [
  ⟨BCC, 2, 2, 0, Relative⟩,
  ⟨STA, 2, 6, 0, IndirectIndexed⟩,
  ⟨HLT, 1, 0, 0, Implied⟩,
  ⟨AHX, 2, 6, 0, IndirectIndexed⟩,
  ⟨STY, 2, 4, 0, ZeroPageX⟩,
  ⟨STA, 2, 4, 0, ZeroPageX⟩,
  ⟨STX, 2, 4, 0, ZeroPageY⟩,
  ⟨SAX, 2, 4, 0, ZeroPageY⟩,
  ⟨TYA, 1, 2, 0, Implied⟩,
  ⟨STA, 3, 5, 0, AbsoluteY⟩,
  ⟨TXS, 1, 2, 0, Implied⟩,
  ⟨TAS, 3, 5, 0, AbsoluteY⟩,
  ⟨SHY, 3, 5, 0, AbsoluteX⟩,
  ⟨STA, 3, 5, 0, AbsoluteX⟩,
  ⟨SHX, 3, 5, 0, AbsoluteY⟩,
  ⟨AHX, 3, 5, 0, AbsoluteY⟩]

/-- Opcode table rows 0xa0-0xaf. -/
def opcodesA : List Opcode := [
  ⟨LDY, 2, 2, 0, Immediate⟩,
  ⟨LDA, 2, 6, 0, IndexedIndirect⟩,
  ⟨LDX, 2, 2, 0, Immediate⟩,
  ⟨LAX, 2, 6, 0, IndexedIndirect⟩,
  ⟨LDY, 2, 3, 0, ZeroPage⟩,
  ⟨LDA, 2, 3, 0, ZeroPage⟩,
  ⟨LDX, 2, 3, 0, ZeroPage⟩,
  ⟨LAX, 2, 3, 0, ZeroPage⟩,
  ⟨TAY, 1, 2, 0, Implied⟩,
  ⟨LDA, 2, 2, 0, Immediate⟩,
  ⟨TAX, 1, 2, 0, Implied⟩,
  ⟨LAX, 2, 2, 0, Immediate⟩,
  ⟨LDY, 3, 4, 0, Absolute⟩,
  ⟨LDA, 3, 4, 0, Absolute⟩,
  ⟨LDX, 3, 4, 0, Absolute⟩,
  ⟨LAX, 3, 4, 0, Absolute⟩]

/-- Opcode table rows 0xb0-0xbf. -/
def opcodesB : List Opcode := [
  ⟨BCS, 2, 2, 0, Relative⟩,
  ⟨LDA, 2, 5, 1, IndirectIndexed⟩,
  ⟨HLT, 1, 0, 0, Implied⟩,
  ⟨LAX, 2, 5, 1, IndirectIndexed⟩,
  ⟨LDY, 2, 4, 0, ZeroPageX⟩,
  ⟨LDA, 2, 4, 0, ZeroPageX⟩,
  ⟨LDX, 2, 4, 0, ZeroPageY⟩,
  ⟨LAX, 2, 4, 0, ZeroPageY⟩,
  ⟨CLV, 1, 2, 0, Implied⟩,
  ⟨LDA, 3, 4, 1, AbsoluteY⟩,
  ⟨TSX, 1, 2, 0, Implied⟩,
  ⟨LAS, 3, 4, 1, AbsoluteY⟩,
  ⟨LDY, 3, 4, 1, AbsoluteX⟩,
  ⟨LDA, 3, 4, 1, AbsoluteX⟩,
  ⟨LDX, 3, 4, 1, AbsoluteY⟩,
  ⟨LAX, 3, 4, 1, AbsoluteY⟩]

/-- Opcode table rows 0xc0-0xcf. -/
def opcodesC : List Opcode := [
  ⟨CPY, 2, 2, 0, Immediate⟩,
  ⟨CMP, 2, 6, 0, IndexedIndirect⟩,
  ⟨NOP, 2, 2, 0, Immediate⟩,
  ⟨DCP, 2, 8, 0, IndexedIndirect⟩,
  ⟨CPY, 2, 3, 0, ZeroPage⟩,
  ⟨CMP, 2, 3, 0, ZeroPage⟩,
  ⟨DEC, 2, 5, 0, ZeroPage⟩,
  ⟨DCP, 2, 5, 0, ZeroPage⟩,
  ⟨INY, 1, 2, 0, Implied⟩,
  ⟨CMP, 2, 2, 0, Immediate⟩,
  ⟨DEX, 1, 2, 0, Implied⟩,
  ⟨AXS, 2, 2, 0, Immediate⟩,
  ⟨CPY, 3, 4, 0, Absolute⟩,
  ⟨CMP, 3, 4, 0, Absolute⟩,
  ⟨DEC, 3, 6, 0, Absolute⟩,
  ⟨DCP, 3, 6, 0, Absolute⟩]

/-- Opcode table rows 0xd0-0xdf. -/
def opcodesD : List Opcode := [
  ⟨BNE, 2, 2, 0, Relative⟩,
  ⟨CMP, 2, 5, 1, IndirectIndexed⟩,
  ⟨HLT, 1, 0, 0, Implied⟩,
  ⟨DCP, 2, 8, 0, IndirectIndexed⟩,
  ⟨NOP, 2, 4, 0, ZeroPageX⟩,
  ⟨CMP, 2, 4, 0, ZeroPageX⟩,
  ⟨DEC, 2, 6, 0, ZeroPageX⟩,
  ⟨DCP, 2, 6, 0, ZeroPageX⟩,
  ⟨CLD, 1, 2, 0, Implied⟩,
  ⟨CMP, 3, 4, 1, AbsoluteY⟩,
  ⟨NOP, 1, 2, 0, Implied⟩,
  ⟨DCP, 3, 7, 0, AbsoluteY⟩,
  ⟨NOP, 3, 4, 1, AbsoluteX⟩,
  ⟨CMP, 3, 4, 1, AbsoluteX⟩,
  ⟨DEC, 3, 7, 0, AbsoluteX⟩,
  ⟨DCP, 3, 7, 0, AbsoluteX⟩]

/-- Opcode table rows 0xe0-0xef. -/
def opcodesE : List Opcode := [
  ⟨CPX, 2, 2, 0, Immediate⟩,
  ⟨SBC, 2, 6, 0, IndexedIndirect⟩,
  ⟨NOP, 2, 2, 0, Immediate⟩,
  ⟨ISC, 2, 8, 0, IndexedIndirect⟩,
  ⟨CPX, 2, 3, 0, ZeroPage⟩,
  ⟨SBC, 2, 3, 0, ZeroPage⟩,
  ⟨INC, 2, 5, 0, ZeroPage⟩,
  ⟨ISC, 2, 5, 0, ZeroPage⟩,
  ⟨INX, 1, 2, 0, Implied⟩,
  ⟨SBC, 2, 2, 0, Immediate⟩,
  ⟨NOP, 1, 2, 0, Implied⟩,
  ⟨SBC, 2, 2, 0, Immediate⟩,
  ⟨CPX, 3, 4, 0, Absolute⟩,
  ⟨SBC, 3, 4, 0, Absolute⟩,
  ⟨INC, 3, 6, 0, Absolute⟩,
  ⟨ISC, 3, 6, 0, Absolute⟩]

/-- Opcode table rows 0xf0-0xff. -/
def opcodesF : List Opcode := [
  ⟨BEQ, 2, 2, 1, Relative⟩,
  ⟨SBC, 2, 5, 1, IndirectIndexed⟩,
  ⟨HLT, 1, 0, 0, Implied⟩,
  ⟨ISC, 2, 8, 0, IndirectIndexed⟩,
  ⟨NOP, 2, 4, 0, ZeroPageX⟩,
  ⟨SBC, 2, 4, 0, ZeroPageX⟩,
  ⟨INC, 2, 6, 0, ZeroPageX⟩,
  ⟨ISC, 2, 6, 0, ZeroPageX⟩,
  ⟨SED, 1, 2, 0, Implied⟩,
  ⟨SBC, 3, 4, 1, AbsoluteY⟩,
  ⟨NOP, 1, 2, 0, Implied⟩,
  ⟨ISC, 3, 7, 0, AbsoluteY⟩,
  ⟨NOP, 3, 4, 1, AbsoluteX⟩,
  ⟨SBC, 3, 4, 1, AbsoluteX⟩,
  ⟨INC, 3, 7, 0, AbsoluteX⟩,
  ⟨ISC, 3, 7, 0, AbsoluteX⟩]

/-- The fixed 256-entry opcode table (`opcodes` in the source), the
concatenation of its sixteen 16-row blocks. -/
def opcodes : List Opcode :=
  opcodes0 ++ opcodes1 ++ opcodes2 ++ opcodes3 ++ opcodes4 ++ opcodes5 ++
  opcodes6 ++ opcodes7 ++ opcodes8 ++ opcodes9 ++ opcodesA ++ opcodesB ++
  opcodesC ++ opcodesD ++ opcodesE ++ opcodesF

/-- Index the opcode table with an opcode byte; the default is never used
because the table has 256 entries and opcode bytes are below 256. -/
def opcodeAt (b : Nat) : Opcode :=
  (opcodes.get? b).getD ⟨HLT, 1, 0, 0, Implied⟩

/-- The handler dispatch array (`fast.ops` in the source), listed in
mnemonic (iota) order. -/
def ops : List (Fast → Nat → Fast) := [
  Fast.adc, Fast.and, Fast.asl, Fast.bcc, Fast.bcs, Fast.beq, Fast.bit,
  Fast.bmi, Fast.bne, Fast.bpl, Fast.brk, Fast.bvc, Fast.bvs, Fast.clc,
  Fast.cld, Fast.cli, Fast.clv, Fast.cmp, Fast.cpx, Fast.cpy, Fast.dec,
  Fast.dex, Fast.dey, Fast.eor, Fast.inc, Fast.inx, Fast.iny, Fast.jmp,
  Fast.jsr, Fast.lda, Fast.ldx, Fast.ldy, Fast.lsr, Fast.nop, Fast.ora,
  Fast.pha, Fast.php, Fast.pla, Fast.plp, Fast.rol, Fast.ror, Fast.rti,
  Fast.rts, Fast.sbc, Fast.sec, Fast.sed, Fast.sei, Fast.sta, Fast.stx,
  Fast.sty, Fast.tax, Fast.tay, Fast.tsx, Fast.txa, Fast.txs, Fast.tya,
  Fast.hlt, Fast.lax, Fast.sax, Fast.dcp, Fast.isc, Fast.rla, Fast.rra,
  Fast.slo, Fast.sre, Fast.anc, Fast.alr, Fast.arr, Fast.xaa, Fast.ahx,
  Fast.tas, Fast.shx, Fast.shy, Fast.las, Fast.axs]

/-- Dispatch a mnemonic through the handler array. Indexing out of range
(impossible for table mnemonics) is `none`, mirroring a Go index panic. -/
def exec (m : Nat) (cpu : Fast) (addr : Nat) : Option Fast :=
  (ops.get? m).map fun f => f cpu addr

/-- The data the monitor's `BeforeExecute` observes (`Instruction` in the
source, minus the CPU back-reference, which keeps the embedding
first-order). -/
structure Instr where
  Cycles : Nat
  Mnemonic : Nat
  Registers : Registers
  AddressMode : Nat
  Raw : List Nat

/-- `fast.ReadAt` restricted to what `Step` uses: the `size` raw opcode bytes
at `offs`, read via internal RAM then the bus, with reads clamped below
address `0xFFFF` (the short-read behaviour of `memory.ReaderAt`); clamped
bytes stay zero. -/
def readAtRaw (cpu : Fast) (offs size : Nat) : List Nat :=
  (List.range size).map fun i =>
    let a := offs + i
    if a < cpu.ramSize then u8 (cpu.ram a)
    else if a < 0xffff then u8 (cpu.bus a)
    else 0

/-- A monitor: the `BeforeExecute` callback as a predicate on the observed
instruction. -/
def Monitor : Type := Instr → Bool

/-- The tail of `fast.Step` after the monitor check: set the addressing
mode, resolve the address (adding the page-cross penalty), advance PC,
dispatch the handler, add the base cycles, and return the cycles spent. -/
def stepExec (start : Nat) (op : Opcode) (s0 : Fast) : Option (Nat × Fast) :=
  let s1 := { s0 with addressMode := op.Mode }
  match s1.resolveAddr with
  | Option.none => none
  | Option.some (pageCrossed, addr) =>
    let s2 := if pageCrossed then { s1 with cycles := s1.cycles + op.PageCrossCycles } else s1
    let s3 := { s2 with reg := { s2.reg with PC := u16 (s2.reg.PC + op.Size) } }
    match exec op.Mnemonic s3 addr with
    | Option.none => none
    | Option.some s4 =>
      let s5 := { s4 with cycles := s4.cycles + op.Cycles }
      some (s5.cycles - start, s5)

/-- `fast.Step`: one instruction. Returns the cycles spent and the new
state; `none` only for the source's panic paths (which `step_total` below
proves unreachable). The attached monitor, if any, is the `mon` argument. -/
def Step (mon : Option Monitor) (s : Fast) : Option (Nat × Fast) :=
  if s.notReady then some (0, s)
  else
    let s := s.handleInterrupts
    let start := s.cycles
    let op := opcodeAt (s.Fetch s.reg.PC)
    match mon with
    | Option.some f =>
      if f ⟨s.cycles, op.Mnemonic, s.reg, op.Mode, readAtRaw s s.reg.PC op.Size⟩ then
        stepExec start op s
      else
        some (0, s)
    | Option.none => stepExec start op s

/-- A stack operation: one `fast.Push` or one `fast.Pull`. `fast.PushWord`
and `fast.PullWord` are two of these, so PHA/PHP/PLA/PLP, JSR/RTS, BRK/RTI
and interrupt entry all reduce to sequences of these operations. -/
inductive StackOp where
  | push (v : Nat)
  | pull
deriving DecidableEq, Repr

/-- Run a sequence of `fast.Push`/`fast.Pull` operations, also returning the
list of addresses the stack accesses target: a push stores at
`0x0100 | S`, a pull increments S first and fetches `0x0100 | S`, exactly
the address expressions of `fast.Push` and `fast.Pull`. -/
def runStack : List StackOp → Fast → Fast × List Nat
  | [], s => (s, [])
  | StackOp.push v :: rest, s =>
    let a := 0x0100 ||| s.reg.S
    let r := runStack rest (s.Push v)
    (r.1, a :: r.2)
  | StackOp.pull :: rest, s =>
    let a := 0x0100 ||| u8 (s.reg.S + 1)
    let r := runStack rest (s.Pull).1
    (r.1, a :: r.2)

/-- The built-in memory implementations of the `memory` package: `RAM`
(read/write, panics out of range: `none`), `ROM` (writes dropped), `Blank`
(constant byte) and `Masked` (address masked before delegation). -/
inductive Mem where
  | ram (bytes : List Nat)
  | rom (bytes : List Nat)
  | blank (b : Nat)
  | masked (inner : Mem) (mask : Nat)
deriving DecidableEq, Repr

/-- `Fetch` of the built-in memories; `none` models the Go slice-index panic
of `RAM`/`ROM` outside their backing array. -/
def Mem.fetch : Mem → Nat → Option Nat
  | Mem.ram bytes, a => (bytes.get? a).map u8
  | Mem.rom bytes, a => (bytes.get? a).map u8
  | Mem.blank b, _ => some (u8 b)
  | Mem.masked inner mask, a => inner.fetch (a &&& mask)

/-- `Store` of the built-in memories: `RAM` updates in place (panicking out
of range), `ROM` and `Blank` drop the write, `Masked` masks the address. -/
def Mem.store : Mem → Nat → Nat → Option Mem
  | Mem.ram bytes, a, v =>
    if a < bytes.length then some (Mem.ram (bytes.set a (u8 v))) else none
  | Mem.rom bytes, _, _ => some (Mem.rom bytes)
  | Mem.blank b, _, _ => some (Mem.blank b)
  | Mem.masked inner mask, a, v => (inner.store (a &&& mask) v).map (Mem.masked · mask)

/-- A mapped memory range (`memoryRange` in the source): a backing memory
with the inclusive `addr`/`stop` bounds. -/
structure MemRange where
  mem : Mem
  addr : Nat
  stop : Nat
deriving DecidableEq, Repr

/-- Junk range used for the never-taken `getD` defaults of list indexing
that the source performs unconditionally on in-range indices. -/
def dfltRange : MemRange := ⟨Mem.blank 0, 0, 0⟩

/-- `memoryRanges.Less(i, j)` from the source: `false` when `j` is contained
in `i`, otherwise compare start addresses. -/
def rangeLess (x y : MemRange) : Bool :=
  if y.addr ≥ x.addr ∧ y.stop ≤ x.stop then false
  else decide (x.addr < y.addr)

/-- One leftward bubble of Go's `insertionSort` inner loop, acting on the
reversed prefix: the new element `x` swaps left past `y` while
`Less(x, y)`. -/
def bubble (x : MemRange) : List MemRange → List MemRange
  | [] => [x]
  | y :: ys => if rangeLess x y then y :: bubble x ys else x :: y :: ys

/-- `sort.Stable` as the source's range lists see it: for lists of at most
20 elements (every list the claims touch) Go's stable sort is exactly
`insertionSort(data, 0, n)`, which this fold implements (the accumulator is
the reversed sorted prefix). -/
def sortStable (l : List MemRange) : List MemRange :=
  (l.foldl (fun acc x => bubble x acc) []).reverse

/-- The loop of `sort.Search` with explicit fuel; every iteration of Go's
loop shrinks `j - i` by at least one, so fuel `j - i` runs the loop to
completion. -/
def searchLoop : Nat → (Nat → Bool) → Nat → Nat → Nat
  | 0, _, i, _ => i
  | fuel + 1, f, i, j =>
    if i < j then
      let m := (i + j) / 2
      if f m then searchLoop fuel f i m else searchLoop fuel f (m + 1) j
    else i

/-- `sort.Search(n, f)`: binary search over `[0, n)` for the smallest index
satisfying `f` (on comparator-sorted monotone data); Go's loop exactly. -/
def searchGo (f : Nat → Bool) (i j : Nat) : Nat :=
  searchLoop (j - i) f i j

/-- `memoryRanges.Bank`: binary-search the first range whose `stop` bound is
at least `addr`, then return it only if it actually contains `addr`.
Returns the index of the found range (the source returns the range itself;
the index identifies it for stores). -/
def bankIdx (rs : List MemRange) (addr : Nat) : Option Nat :=
  let i := searchGo (fun k => decide (addr ≤ ((rs.get? k).getD dfltRange).stop)) 0 rs.length
  match rs.get? i with
  | Option.some it => if addr ≥ it.addr ∧ addr ≤ it.stop then some i else none
  | Option.none => none

/-- `Mapper`: the bank-switching address mapper: a zero byte for unmapped
areas and the sorted list of mapped ranges. -/
structure Mapper where
  Zero : Nat
  mapped : List MemRange
deriving DecidableEq, Repr

/-- `NewMapper()`: an empty mapper with zero value `0xff`. -/
def NewMapper : Mapper := ⟨0xff, []⟩

/-- `Mapper.Fetch`: dispatch to the bank containing the address, or read the
zero value. -/
def Mapper.Fetch (m : Mapper) (addr : Nat) : Option Nat :=
  match bankIdx m.mapped addr with
  | Option.some i => ((m.mapped.get? i).getD dfltRange).mem.fetch addr
  | Option.none => some m.Zero

/-- `Mapper.Store`: dispatch to the bank containing the address, or drop the
write. -/
def Mapper.Store (m : Mapper) (addr v : Nat) : Option Mapper :=
  match bankIdx m.mapped addr with
  | Option.some i =>
    let r := (m.mapped.get? i).getD dfltRange
    (r.mem.store addr v).map fun mm => { m with mapped := m.mapped.set i { r with mem := mm } }
  | Option.none => some m

/-- `Mapper.Map(addr, stop, memory)`: append the range and re-sort
stably. -/
def Mapper.Map (m : Mapper) (addr stop : Nat) (mem : Mem) : Mapper :=
  { m with mapped := sortStable (m.mapped ++ [⟨mem, addr, stop⟩]) }

/-- Test fixture: a CPU state with the given PC and external bus, no internal
RAM, a 6502-like capability set, quiescent interrupt and ready lines. -/
def mkState (pc : Nat) (bus : Nat → Nat) : Fast :=
  { reg := ⟨pc, 0xFD, 0x34, 0, 0, 0⟩, bus := bus, ram := fun _ => 0xFF,
    ramSize := 0, interrupt := Interrupt.none, cycles := 0, halted := false,
    addressMode := 0, hasBCD := true, hasNMI := true, hasIRQ := true,
    hasReady := true, notReady := false }

/-- Memory for the JMP-indirect page-boundary scenario of the spec:
`6C FF 10` at `0x0600`, `0x10FF = 0x00`, `0x1100 = 0x40`, `0x1000 = 0x50`,
NOP elsewhere. -/
def busJmpInd : Nat → Nat := fun a =>
  if a = 0x0600 then 0x6C else if a = 0x0601 then 0xFF
  else if a = 0x0602 then 0x10 else if a = 0x10FF then 0x00
  else if a = 0x1100 then 0x40 else if a = 0x1000 then 0x50 else 0xEA

/-- The JMP-indirect scenario state. -/
def stJmpInd : Fast := mkState 0x0600 busJmpInd

/-- Memory with the NMI vector targeting `0x9000` and the IRQ vector
targeting `0x8000`, NOPs everywhere else. -/
def busVec : Nat → Nat := fun a =>
  if a = 0xFFFA then 0x00 else if a = 0xFFFB then 0x90
  else if a = 0xFFFE then 0x00 else if a = 0xFFFF then 0x80 else 0xEA

/-- State for the double-interrupt-request scenario. -/
def stVec : Fast := mkState 0x0200 busVec

/-- State for the vetoed-step scenario: an NMI is already latched. -/
def stVetoNMI : Fast := { mkState 0x0200 busVec with interrupt := Interrupt.nmi }

/-- State with a KIL/HLT opcode (`0x02`) at PC = `0x0700`. -/
def stHlt : Fast := mkState 0x0700 (fun a => if a = 0x0700 then 0x02 else 0xEA)

/-- The decimal-adjusted total of BCD ADC, written from the amended claim:
binary total first, plus 6 when the low-nibble sum exceeds 9, plus 0x60 when
the (low-adjusted) total exceeds 0x99. -/
def adcDecimalTotal (a b : Nat) (c : Bool) : Nat :=
  let cv := if c then 1 else 0
  let t0 := a + b + cv
  let t1 := if a % 16 + b % 16 + cv > 9 then t0 + 6 else t0
  if t1 > 0x99 then t1 + 0x60 else t1

/-- The C8 failing input: a container range mapped first, then a range it
entirely contains. -/
def c8Mapper : Mapper :=
  (NewMapper.Map 0x1000 0x3fff (Mem.blank 0xAA)).Map 0x2000 0x2fff (Mem.blank 0xBB)


theorem u8_lt (x : Nat) : u8 x < 256 := Nat.mod_lt _ (by omega)

theorem lor256_fin : ∀ s : Fin 256, (256 ||| (s : Nat)) = 256 + (s : Nat) := by decide

theorem lor256 (s : Nat) (h : s < 256) : 256 ||| s = 256 + s := lor256_fin ⟨s, h⟩

theorem beq_and128_testBit (x : Nat) : ((x &&& 128) == 128) = x.testBit 7 := by
  have h := Nat.and_two_pow x 7
  norm_num at h
  rw [h]
  cases hx : x.testBit 7 <;> simp

theorem beq_and128_ne (x : Nat) : ((x &&& 128) == 128) = ((x &&& 128) != 0) := by
  have h := Nat.and_two_pow x 7
  norm_num at h
  rw [h]
  cases hx : x.testBit 7 <;> simp

theorem and0xff00_fin :
    ∀ t : Fin 512, (((t : Nat) &&& 0xff00) != 0) = decide ((t : Nat) > 0xff) := by decide

theorem and0xff00_gt (t : Nat) (h : t < 512) :
    ((t &&& 0xff00) != 0) = decide (t > 0xff) := and0xff00_fin ⟨t, h⟩

theorem and15_mod (x : Nat) : x &&& 15 = x % 16 := Nat.and_pow_two_sub_one_eq_mod x 4

/-- C6: for all bytes A and M and incoming carry, binary-mode ADC (`bcd`
off) produces result `low8(A+M+C)`, carry `(A+M+C) > 0xFF`, overflow
`((A^R) & (M^R) & 0x80) ≠ 0`, zero `R == 0`, negative bit 7 of R. -/
theorem adc_binary_matches_spec (a b : Nat) (ha : a < 256) (hb : b < 256) (c : Bool) :
    adc a b c false =
      { r := u8 (a + b + (if c then 1 else 0)),
        n := (u8 (a + b + (if c then 1 else 0))).testBit 7,
        v := (((a ^^^ u8 (a + b + (if c then 1 else 0))) &&&
                (b ^^^ u8 (a + b + (if c then 1 else 0))) &&& 0x80) != 0),
        z := (u8 (a + b + (if c then 1 else 0)) == 0),
        c := decide (a + b + (if c then 1 else 0) > 0xff) } := by
  have h512 : a + b + (if c then 1 else 0) < 512 := by cases c <;> simp <;> omega
  simp only [adc, overflow, Bool.false_eq_true, if_false]
  rw [beq_and128_testBit, beq_and128_ne, and0xff00_gt _ h512]

/-- Witness for C6 at the spec's literal scenario B (`0x50 + 0x50`). -/
theorem adc_binary_matches_spec_witness :
    (0x50 : Nat) < 256 ∧ (0x50 : Nat) < 256 ∧
      adc 0x50 0x50 false false =
        { r := 0xA0, n := true, v := true, z := false, c := false } := by
  refine ⟨by decide, by decide, ?_⟩
  rw [adc_binary_matches_spec 0x50 0x50 (by decide) (by decide) false]
  decide

/-- C2 counterexample: in decimal mode the N and V flags are not taken from
the pre-BCD binary result: at `A = 0x79`, `M = 0x01`, carry clear, the
binary byte is `0x7A` (bit 7 clear, no binary overflow), yet the code sets
both N and V (they are computed from the adjusted byte `0x80`). -/
theorem adc_bcd_flags_not_binary :
    (adc 0x79 0x01 false true).n = true ∧
      (u8 (0x79 + 0x01 + 0)).testBit 7 = false ∧
      (adc 0x79 0x01 false true).v = true ∧
      overflow 0x79 0x01 (u8 (0x79 + 0x01 + 0)) = false := by decide

/-- C2 (amended): with D set on a BCD model, ADC applies the decimal
adjustment to the result byte and the carry (carry set iff the adjusted
total exceeds 0x99), and the N, V and Z flags are computed from the
decimal-adjusted result byte: N its bit 7, V the overflow predicate applied
to it, Z whether it is zero. -/
theorem adc_bcd_flags_from_adjusted (a b : Nat) (c : Bool) :
    adc a b c true =
      { r := u8 (adcDecimalTotal a b c),
        n := (u8 (adcDecimalTotal a b c)).testBit 7,
        v := (((a ^^^ u8 (adcDecimalTotal a b c)) &&&
                (b ^^^ u8 (adcDecimalTotal a b c)) &&& 0x80) != 0),
        z := (u8 (adcDecimalTotal a b c) == 0),
        c := decide (adcDecimalTotal a b c > 0x99) } := by
  simp only [adc, overflow, adcDecimalTotal, and15_mod, if_true]
  rw [beq_and128_testBit, beq_and128_ne]

/-- Witness for the amended C2 at the spec's literal scenario C
(`0x15 + 0x27 + 1` in decimal mode gives `0x43`, carry clear). -/
theorem adc_bcd_flags_from_adjusted_witness :
    adc 0x15 0x27 true true =
      { r := 0x43, n := false, v := false, z := false, c := false } := by
  rw [adc_bcd_flags_from_adjusted 0x15 0x27 true]
  decide

/-- C1: the spec demands the JMP-indirect page-boundary hardware bug, but
`resolveAddr`'s Indirect case reads the pointer with the plain `FetchWord`,
so on the spec's own scenario the high byte comes from `base + 1 = 0x1100`
and the step lands at `0x4000`, not the required `0x5000`. The `FetchWordBug`
helper exists but is unused, and is itself broken: on this memory it returns
`0x0050` (its high byte is OR-ed in unshifted). -/
theorem jmp_indirect_bug_missing :
    ((Step Option.none stJmpInd).map fun r => (r.1, r.2.reg.PC)) = some (5, 0x4000) ∧
      (0x4000 : Nat) ≠ 0x5000 ∧ FetchWordBug stJmpInd 0x10FF = 0x0050 := by
  refine ⟨by decide, by decide, by decide⟩

theorem opcodes_length : opcodes.length = 256 := by decide

theorem ops_length : ops.length = 75 := by decide

theorem opcodeAt_hlt_fin :
    ∀ x : Fin 256, (opcodeAt x.val).Mnemonic = HLT →
      opcodeAt x.val = ⟨HLT, 1, 0, 0, Implied⟩ := by decide

theorem opcodeAt_hlt (b : Nat) (h : (opcodeAt b).Mnemonic = HLT) :
    opcodeAt b = ⟨HLT, 1, 0, 0, Implied⟩ := by
  by_cases hb : b < 256
  · exact opcodeAt_hlt_fin ⟨b, hb⟩ h
  · unfold opcodeAt
    rw [List.get?_eq_none.mpr (by rw [opcodes_length]; omega)]
    rfl

theorem handleInterrupts_none (s : Fast) (h : s.interrupt = Interrupt.none) :
    s.handleInterrupts = s := by
  cases s
  simp only at h
  simp [Fast.handleInterrupts, h]

theorem resolveAddr_mode0 (s : Fast) (h : s.addressMode = 0) :
    s.resolveAddr = some (false, 0) := by
  simp [Fast.resolveAddr, h]

theorem exec_hlt (cpu : Fast) (addr : Nat) :
    exec HLT cpu addr = some (cpu.hlt addr) := by
  simp [exec, ops, HLT, List.get?]

theorem stepExec_hlt (start : Nat) (s : Fast) :
    stepExec start ⟨HLT, 1, 0, 0, Implied⟩ s =
      some (s.cycles - start,
        { s with addressMode := 0, halted := true,
                 reg := { s.reg with PC := u16 (u16 (s.reg.PC + 1) + 65535) } }) := by
  simp only [stepExec]
  rw [resolveAddr_mode0 _ rfl]
  simp [exec_hlt, Fast.hlt, Implied]

/-- C5: executing any KIL/HLT opcode in one `Step` sets the sticky halted
flag, leaves PC at the HLT byte itself (decremented by one after the size
advance), and the step returns 0 cycles (the cycle counter is unchanged). -/
theorem hlt_traps_pc (s : Fast) (h1 : s.notReady = false)
    (h2 : s.interrupt = Interrupt.none)
    (h3 : (opcodeAt (s.Fetch s.reg.PC)).Mnemonic = HLT) (h4 : s.reg.PC < 65536) :
    (Step Option.none s).map (fun r => (r.1, r.2.reg.PC, r.2.halted, r.2.cycles)) =
      some (0, s.reg.PC, true, s.cycles) := by
  simp only [Step]
  rw [h1, handleInterrupts_none s h2, opcodeAt_hlt _ h3, stepExec_hlt]
  simp only [Bool.false_eq_true, if_false, Option.map_some]
  have hpc : u16 (u16 (s.reg.PC + 1) + 65535) = s.reg.PC := by
    unfold u16
    omega
  rw [hpc]
  simp

/-- Witness for C5 at the spec's literal scenario F (`0x02` at `0x0700`). -/
theorem hlt_traps_pc_witness :
    stHlt.notReady = false ∧ stHlt.interrupt = Interrupt.none ∧
      (opcodeAt (stHlt.Fetch stHlt.reg.PC)).Mnemonic = HLT ∧ stHlt.reg.PC < 65536 ∧
      (Step Option.none stHlt).map (fun r => (r.1, r.2.reg.PC, r.2.halted, r.2.cycles)) =
        some (0, stHlt.reg.PC, true, stHlt.cycles) := by
  refine ⟨rfl, rfl, by decide, by decide,
    hlt_traps_pc stHlt rfl rfl (by decide) (by decide)⟩

theorem opcodeAt_bounds_fin :
    ∀ x : Fin 256, (opcodeAt x.val).Mode < 13 ∧ (opcodeAt x.val).Mnemonic < 75 := by
  decide

theorem opcodeAt_bounds (b : Nat) :
    (opcodeAt b).Mode < 13 ∧ (opcodeAt b).Mnemonic < 75 := by
  by_cases hb : b < 256
  · exact opcodeAt_bounds_fin ⟨b, hb⟩
  · unfold opcodeAt
    rw [List.get?_eq_none.mpr (by rw [opcodes_length]; omega)]
    decide

theorem resolveAddr_isSome (s : Fast) (h : s.addressMode < 13) :
    s.resolveAddr.isSome = true := by
  have h13 : s.addressMode = 0 ∨ s.addressMode = 1 ∨ s.addressMode = 2 ∨
      s.addressMode = 3 ∨ s.addressMode = 4 ∨ s.addressMode = 5 ∨
      s.addressMode = 6 ∨ s.addressMode = 7 ∨ s.addressMode = 8 ∨
      s.addressMode = 9 ∨ s.addressMode = 10 ∨ s.addressMode = 11 ∨
      s.addressMode = 12 := by omega
  rcases h13 with h0|h0|h0|h0|h0|h0|h0|h0|h0|h0|h0|h0|h0 <;>
    simp [Fast.resolveAddr, h0]

theorem exec_isSome (m : Nat) (h : m < 75) (cpu : Fast) (addr : Nat) :
    (exec m cpu addr).isSome = true := by
  unfold exec
  cases hg : ops.get? m with
  | none =>
    have := List.get?_eq_none.mp hg
    rw [ops_length] at this
    omega
  | some f => simp [hg]

theorem stepExec_isSome (start : Nat) (op : Opcode) (s : Fast)
    (hm : op.Mode < 13) (hmn : op.Mnemonic < 75) :
    (stepExec start op s).isSome = true := by
  simp only [stepExec]
  split
  · rename_i heq
    exact absurd (resolveAddr_isSome { s with addressMode := op.Mode } hm)
      (by rw [heq]; simp)
  · split
    · rename_i heq
      exact absurd (exec_isSome op.Mnemonic hmn _ _) (by rw [heq]; simp)
    · simp

/-- C9: `Step` is total (never hits a runtime failure) for every monitor and
state, given total bus functions: every opcode-table entry carries one of
the 13 handled addressing modes (so `resolveAddr`'s panic branch is dead)
and one of the 75 implemented mnemonics (so handler dispatch is in
bounds). -/
theorem step_total (mon : Option Monitor) (s : Fast) : (Step mon s).isSome = true := by
  unfold Step
  by_cases hr : s.notReady
  · simp [hr]
  · simp only [hr, Bool.false_eq_true, if_false]
    obtain ⟨hm, hmn⟩ := opcodeAt_bounds (s.handleInterrupts.Fetch s.handleInterrupts.reg.PC)
    cases mon with
    | none => exact stepExec_isSome _ _ _ hm hmn
    | some f =>
      by_cases hf : f ⟨s.handleInterrupts.cycles,
          (opcodeAt (s.handleInterrupts.Fetch s.handleInterrupts.reg.PC)).Mnemonic,
          s.handleInterrupts.reg,
          (opcodeAt (s.handleInterrupts.Fetch s.handleInterrupts.reg.PC)).Mode,
          readAtRaw s.handleInterrupts s.handleInterrupts.reg.PC
            (opcodeAt (s.handleInterrupts.Fetch s.handleInterrupts.reg.PC)).Size⟩
      · simp only [hf, if_true]
        exact stepExec_isSome _ _ _ hm hmn
      · simp [hf]

theorem Store_reg (cpu : Fast) (a v : Nat) : (cpu.Store a v).reg = cpu.reg := by
  unfold Fast.Store
  split <;> rfl

theorem Store_cycles (cpu : Fast) (a v : Nat) : (cpu.Store a v).cycles = cpu.cycles := by
  unfold Fast.Store
  split <;> rfl

theorem Store_interrupt (cpu : Fast) (a v : Nat) :
    (cpu.Store a v).interrupt = cpu.interrupt := by
  unfold Fast.Store
  split <;> rfl

theorem Fetch_Store_diff (cpu : Fast) (a b v : Nat) (h : u16 b ≠ u16 a) :
    (cpu.Store a v).Fetch b = cpu.Fetch b := by
  unfold Fast.Store Fast.Fetch
  split <;> simp [h]

theorem Fetch_Store_same (cpu : Fast) (a b v : Nat) (h : u16 b = u16 a) :
    (cpu.Store a v).Fetch b = u8 v := by
  unfold Fast.Store Fast.Fetch
  split <;> rename_i hs <;> simp [h, hs] <;> unfold u8 <;> omega

theorem Push_S (cpu : Fast) (v : Nat) : (cpu.Push v).reg.S = u8 (cpu.reg.S + 255) := by
  simp [Fast.Push, Store_reg]

theorem Push_P (cpu : Fast) (v : Nat) : (cpu.Push v).reg.P = cpu.reg.P := by
  simp [Fast.Push, Store_reg]

theorem Push_PC (cpu : Fast) (v : Nat) : (cpu.Push v).reg.PC = cpu.reg.PC := by
  simp [Fast.Push, Store_reg]

theorem Push_cycles (cpu : Fast) (v : Nat) : (cpu.Push v).cycles = cpu.cycles := by
  simp [Fast.Push, Store_cycles]

theorem Push_interrupt (cpu : Fast) (v : Nat) :
    (cpu.Push v).interrupt = cpu.interrupt := by
  simp [Fast.Push, Store_interrupt]

theorem Push_Fetch_diff (cpu : Fast) (v b : Nat)
    (h : u16 b ≠ u16 (0x0100 ||| cpu.reg.S)) :
    (cpu.Push v).Fetch b = cpu.Fetch b :=
  Fetch_Store_diff cpu (0x0100 ||| cpu.reg.S) b v h

theorem Push_Fetch_same (cpu : Fast) (v b : Nat)
    (h : u16 b = u16 (0x0100 ||| cpu.reg.S)) :
    (cpu.Push v).Fetch b = u8 v :=
  Fetch_Store_same cpu (0x0100 ||| cpu.reg.S) b v h

theorem Fetch_set_reg (cpu : Fast) (r : Registers) (b : Nat) :
    Fast.Fetch { cpu with reg := r } b = cpu.Fetch b := rfl

theorem Fetch_set_cycles (cpu : Fast) (n b : Nat) :
    Fast.Fetch { cpu with cycles := n } b = cpu.Fetch b := rfl

theorem u8_add_wrap (x a b : Nat) (h : (x + a) % 256 = (x + b) % 256 → False) :
    u8 (x + a) ≠ u8 (x + b) := by
  unfold u8
  exact h

theorem push3_Fetch_diff (cpu : Fast) (v1 v2 v3 b : Nat)
    (h1 : u16 b ≠ u16 (0x0100 ||| cpu.reg.S))
    (h2 : u16 b ≠ u16 (0x0100 ||| u8 (cpu.reg.S + 255)))
    (h3 : u16 b ≠ u16 (0x0100 ||| u8 (cpu.reg.S + 254))) :
    (((cpu.Push v1).Push v2).Push v3).Fetch b = cpu.Fetch b := by
  rw [Push_Fetch_diff _ _ _ (by rw [Push_S, Push_S]; rw [show u8 (u8 (cpu.reg.S + 255) + 255) = u8 (cpu.reg.S + 254) by unfold u8; omega]; exact h3)]
  rw [Push_Fetch_diff _ _ _ (by rw [Push_S]; exact h2)]
  exact Push_Fetch_diff _ _ _ h1

theorem push3_Fetch_1 (cpu : Fast) (v1 v2 v3 : Nat) (hS : cpu.reg.S < 256) :
    (((cpu.Push v1).Push v2).Push v3).Fetch (0x0100 ||| cpu.reg.S) = u8 v1 := by
  have hb : ∀ k, k < 256 → u16 (0x0100 ||| k) = 256 + k := by
    intro k hk
    rw [lor256 k hk]
    unfold u16
    omega
  rw [Push_Fetch_diff _ _ _ (by
    rw [Push_S, Push_S]
    rw [show u8 (u8 (cpu.reg.S + 255) + 255) = u8 (cpu.reg.S + 254) by unfold u8; omega]
    rw [hb _ hS, hb _ (u8_lt _)]
    unfold u8
    omega)]
  rw [Push_Fetch_diff _ _ _ (by
    rw [Push_S]
    rw [hb _ hS, hb _ (u8_lt _)]
    unfold u8
    omega)]
  rw [Push_Fetch_same _ _ _ rfl]

theorem push3_Fetch_2 (cpu : Fast) (v1 v2 v3 : Nat) :
    (((cpu.Push v1).Push v2).Push v3).Fetch (0x0100 ||| u8 (cpu.reg.S + 255)) = u8 v2 := by
  have hb : ∀ k, k < 256 → u16 (0x0100 ||| k) = 256 + k := by
    intro k hk
    rw [lor256 k hk]
    unfold u16
    omega
  rw [Push_Fetch_diff _ _ _ (by
    rw [Push_S, Push_S]
    rw [show u8 (u8 (cpu.reg.S + 255) + 255) = u8 (cpu.reg.S + 254) by unfold u8; omega]
    rw [hb _ (u8_lt _), hb _ (u8_lt _)]
    unfold u8
    omega)]
  rw [Push_Fetch_same _ _ _ (by rw [Push_S])]

theorem push3_Fetch_3 (cpu : Fast) (v1 v2 v3 : Nat) :
    (((cpu.Push v1).Push v2).Push v3).Fetch (0x0100 ||| u8 (cpu.reg.S + 254)) = u8 v3 := by
  rw [Push_Fetch_same _ _ _ (by
    rw [Push_S, Push_S]
    rw [show u8 (u8 (cpu.reg.S + 255) + 255) = u8 (cpu.reg.S + 254) by unfold u8; omega])]

theorem nmiRun_spec (s : Fast) (hS : s.reg.S < 256) :
    s.nmiRun.interrupt = s.interrupt ∧
    s.nmiRun.reg.PC = FetchWord s NMIVector ∧
    s.nmiRun.reg.P = (s.reg.P ||| If) ∧
    s.nmiRun.cycles = s.cycles + 7 ∧
    s.nmiRun.reg.S = u8 (s.reg.S + 253) ∧
    s.nmiRun.Fetch (0x0100 ||| s.reg.S) = u8 (s.reg.PC >>> 8) ∧
    s.nmiRun.Fetch (0x0100 ||| u8 (s.reg.S + 255)) = u8 s.reg.PC ∧
    s.nmiRun.Fetch (0x0100 ||| u8 (s.reg.S + 254)) = u8 s.reg.P := by
  have hb : ∀ k, k < 256 → u16 (0x0100 ||| k) = 256 + k := by
    intro k hk
    rw [lor256 k hk]
    unfold u16
    omega
  unfold Fast.nmiRun Fast.PushWord
  refine ⟨?_, ?_, ?_, ?_, ?_, ?_, ?_, ?_⟩
  · simp [Push_interrupt]
  · show FetchWord _ NMIVector = FetchWord s NMIVector
    unfold FetchWord NMIVector
    simp only [Fetch_set_reg]
    rw [Push_P, Push_P]
    rw [push3_Fetch_diff _ _ _ _ _ (by rw [hb _ hS]; unfold u16; omega)
        (by rw [hb _ (u8_lt _)]; unfold u16 u8; omega)
        (by rw [hb _ (u8_lt _)]; unfold u16 u8; omega)]
    rw [push3_Fetch_diff _ _ _ _ _ (by rw [hb _ hS]; unfold u16; omega)
        (by rw [hb _ (u8_lt _)]; unfold u16 u8; omega)
        (by rw [hb _ (u8_lt _)]; unfold u16 u8; omega)]
  · simp [Push_P]
  · simp [Push_cycles]
  · simp only [Push_S]
    unfold u8
    omega
  · refine (push3_Fetch_1 s (u8 (s.reg.PC >>> 8)) (u8 s.reg.PC)
      ((s.Push (u8 (s.reg.PC >>> 8))).Push (u8 s.reg.PC)).reg.P hS).trans ?_
    unfold u8
    omega
  · refine (push3_Fetch_2 s (u8 (s.reg.PC >>> 8)) (u8 s.reg.PC)
      ((s.Push (u8 (s.reg.PC >>> 8))).Push (u8 s.reg.PC)).reg.P).trans ?_
    unfold u8
    omega
  · refine (push3_Fetch_3 s (u8 (s.reg.PC >>> 8)) (u8 s.reg.PC)
      ((s.Push (u8 (s.reg.PC >>> 8))).Push (u8 s.reg.PC)).reg.P).trans ?_
    simp [Push_P]

/-- C3 (amended): the interrupt latch holds a single pending request and a
later request overwrites an earlier one, so when both an NMI and an IRQ are
requested the most recent request wins. When the NMI is requested last, the
next interrupt check (the head of `Step`) services the NMI: it pushes the PC
word (high then low) and P onto the stack, sets I, loads PC from `0xFFFA`,
adds 7 cycles, and clears the latch. -/
theorem interrupt_last_request_wins (s : Fast) (hn : s.hasNMI = true)
    (hi : s.hasIRQ = true) (hS : s.reg.S < 256) :
    ((s.IRQ).NMI).handleInterrupts.interrupt = Interrupt.none ∧
    ((s.IRQ).NMI).handleInterrupts.reg.PC = FetchWord s NMIVector ∧
    ((s.IRQ).NMI).handleInterrupts.reg.P = (s.reg.P ||| If) ∧
    ((s.IRQ).NMI).handleInterrupts.cycles = s.cycles + 7 ∧
    ((s.IRQ).NMI).handleInterrupts.reg.S = u8 (s.reg.S + 253) ∧
    ((s.IRQ).NMI).handleInterrupts.Fetch (0x0100 ||| s.reg.S) = u8 (s.reg.PC >>> 8) ∧
    ((s.IRQ).NMI).handleInterrupts.Fetch (0x0100 ||| u8 (s.reg.S + 255)) = u8 s.reg.PC ∧
    ((s.IRQ).NMI).handleInterrupts.Fetch (0x0100 ||| u8 (s.reg.S + 254)) = u8 s.reg.P := by
  have h1 : (s.IRQ).NMI = { s with interrupt := Interrupt.nmi } := by
    unfold Fast.IRQ Fast.NMI
    rw [hi, hn]
    simp
  rw [h1]
  have h2 : ({ s with interrupt := Interrupt.nmi } : Fast).handleInterrupts =
      { ({ s with interrupt := Interrupt.nmi } : Fast).nmiRun with
          interrupt := Interrupt.none } := rfl
  rw [h2]
  obtain ⟨c1, c2, c3, c4, c5, c6, c7, c8⟩ :=
    nmiRun_spec { s with interrupt := Interrupt.nmi } hS
  exact ⟨rfl, c2, c3, c4, c5, c6, c7, c8⟩

/-- C3 counterexample: with the NMI requested first and the IRQ second, the
next `Step` services the IRQ, not the NMI: PC ends at `0x8001` (one NOP past
the IRQ vector target `0x8000`), not `0x9001` (one NOP past the NMI vector
target `0x9000`), refuting the claim's "in either request order". -/
theorem nmi_then_irq_services_irq :
    ((Step Option.none ((stVec.NMI).IRQ)).map fun r => r.2.reg.PC) = some 0x8001 ∧
      (0x8001 : Nat) ≠ 0x9001 := ⟨by decide, by decide⟩

/-- Witness for the amended C3 at a concrete state with both capabilities. -/
theorem interrupt_last_request_wins_witness :
    stVec.hasNMI = true ∧ stVec.hasIRQ = true ∧ stVec.reg.S < 256 ∧
      (((stVec.IRQ).NMI).handleInterrupts.interrupt = Interrupt.none ∧
       ((stVec.IRQ).NMI).handleInterrupts.reg.PC = FetchWord stVec NMIVector ∧
       ((stVec.IRQ).NMI).handleInterrupts.reg.P = (stVec.reg.P ||| If) ∧
       ((stVec.IRQ).NMI).handleInterrupts.cycles = stVec.cycles + 7 ∧
       ((stVec.IRQ).NMI).handleInterrupts.reg.S = u8 (stVec.reg.S + 253) ∧
       ((stVec.IRQ).NMI).handleInterrupts.Fetch (0x0100 ||| stVec.reg.S) =
         u8 (stVec.reg.PC >>> 8) ∧
       ((stVec.IRQ).NMI).handleInterrupts.Fetch (0x0100 ||| u8 (stVec.reg.S + 255)) =
         u8 stVec.reg.PC ∧
       ((stVec.IRQ).NMI).handleInterrupts.Fetch (0x0100 ||| u8 (stVec.reg.S + 254)) =
         u8 stVec.reg.P) :=
  ⟨rfl, rfl, by decide, interrupt_last_request_wins stVec rfl rfl (by decide)⟩

/-- C4 (amended): when the attached monitor's `BeforeExecute` returns false
and no interrupt is latched, `Step` returns 0 cycles and the CPU state is
returned exactly as it was: registers, flags, memory, interrupt latch and
cycle counter unchanged, and the instruction at PC not executed. -/
theorem monitor_veto_unchanged (s : Fast) (f : Monitor) (hf : ∀ i, f i = false)
    (h : s.interrupt = Interrupt.none) :
    Step (Option.some f) s = some (0, s) := by
  simp only [Step]
  by_cases hr : s.notReady
  · simp [hr]
  · simp only [hr, Bool.false_eq_true, if_false]
    rw [handleInterrupts_none s h]
    rw [hf]
    simp

/-- C4 counterexample: with an NMI latched, a vetoing monitor does not leave
the CPU unchanged: `Step` still returns 0 but the interrupt is serviced
first, so the cycle counter grows from 0 to 7 and PC moves from `0x0200` to
the NMI target `0x9000`. -/
theorem monitor_veto_changes_state :
    ((Step (Option.some fun _ => false) stVetoNMI).map
        fun r => (r.1, r.2.cycles, r.2.reg.PC)) = some (0, 7, 0x9000) ∧
      stVetoNMI.cycles = 0 ∧ stVetoNMI.reg.PC = 0x0200 ∧ (0x9000 : Nat) ≠ 0x0200 := by
  refine ⟨by decide, rfl, rfl, by decide⟩

/-- Witness for the amended C4 at a concrete quiescent state. -/
theorem monitor_veto_unchanged_witness :
    (∀ i : Instr, (fun _ => false : Monitor) i = false) ∧
      stVec.interrupt = Interrupt.none ∧
      Step (Option.some (fun _ => false : Monitor)) stVec = some (0, stVec) :=
  ⟨fun _ => rfl, rfl, monitor_veto_unchanged stVec _ (fun _ => rfl) rfl⟩

/-- `fast.Pull` increments S modulo 256 before reading. -/
theorem Pull_S (cpu : Fast) : (cpu.Pull).1.reg.S = u8 (cpu.reg.S + 1) := rfl

/-- C7: under every sequence of pushes and pulls the stack pointer stays
below 256 (it wraps modulo 256, by `u8` in `Push`/`Pull`), and every stack
access targets `0x0100 | S`, which always lies within
`[0x0100, 0x01FF]`. PHA/PHP/PLA/PLP, JSR/RTS, BRK/RTI and interrupt entry
perform their stack accesses exclusively through these `Push`/`Pull`
operations. -/
theorem stack_discipline (l : List StackOp) : ∀ (s : Fast), s.reg.S < 256 →
    (runStack l s).1.reg.S < 256 ∧
      ∀ a ∈ (runStack l s).2, 0x0100 ≤ a ∧ a ≤ 0x01FF := by
  induction l with
  | nil =>
    intro s hS
    exact ⟨hS, by simp [runStack]⟩
  | cons op rest ih =>
    intro s hS
    cases op with
    | push v =>
      have hS2 : (s.Push v).reg.S < 256 := by rw [Push_S]; exact u8_lt _
      obtain ⟨h1, h2⟩ := ih (s.Push v) hS2
      refine ⟨by simpa [runStack] using h1, ?_⟩
      intro a ha
      simp only [runStack, List.mem_cons] at ha
      rcases ha with ha | ha
      · subst ha
        rw [lor256 _ hS]
        omega
      · exact h2 a ha
    | pull =>
      have hS2 : (s.Pull).1.reg.S < 256 := by rw [Pull_S]; exact u8_lt _
      obtain ⟨h1, h2⟩ := ih (s.Pull).1 hS2
      refine ⟨by simpa [runStack] using h1, ?_⟩
      intro a ha
      simp only [runStack, List.mem_cons] at ha
      rcases ha with ha | ha
      · subst ha
        rw [lor256 _ (u8_lt _)]
        have := u8_lt (s.reg.S + 1)
        omega
      · exact h2 a ha

/-- Witness for C7 on a concrete push/pull/push sequence. -/
theorem stack_discipline_witness :
    stVec.reg.S < 256 ∧
      ((runStack [StackOp.push 0xAB, StackOp.pull, StackOp.push 0x01] stVec).1.reg.S < 256 ∧
        ∀ a ∈ (runStack [StackOp.push 0xAB, StackOp.pull, StackOp.push 0x01] stVec).2,
          0x0100 ≤ a ∧ a ≤ 0x01FF) :=
  ⟨by decide, stack_discipline [StackOp.push 0xAB, StackOp.pull, StackOp.push 0x01]
    stVec (by decide)⟩

/-- C8: the claim's ordering rule fails. Mapping a container range
`[0x1000, 0x3FFF]` first and a contained range `[0x2000, 0x2FFF]` second
leaves the container first: `Less(contained, container)` is false in both
directions, so the stable sort keeps insertion order (third conjunct shows
the kept order, fourth shows the comparator result), and `Fetch(0x2500)`
dispatches to the container (`0xAA`), not the narrower range (`0xBB`) —
contradicting the claim and the comparator's own comment that the smaller
area takes precedence. -/
theorem mapper_nested_range_loses :
    c8Mapper.Fetch 0x2500 = some 0xAA ∧ (0xAA : Nat) ≠ 0xBB ∧
      c8Mapper.mapped.map (fun r => (r.addr, r.stop)) =
        [(0x1000, 0x3fff), (0x2000, 0x2fff)] ∧
      rangeLess ⟨Mem.blank 0xBB, 0x2000, 0x2fff⟩ ⟨Mem.blank 0xAA, 0x1000, 0x3fff⟩ = false :=
  ⟨by decide, by decide, by decide, by decide⟩

/-- C10: the Mapper dispatches with the original, untranslated 16-bit
address: a fetch inside a mapped range invokes the backing memory's fetch at
the absolute address (so a 4-byte RAM mapped at `0x0100` is indexed out of
bounds), a `Masked` backing memory receives the address masked by its own
mask, and a store passes the absolute address through to the backing
memory's bounds check and update. -/
theorem mapper_untranslated (bs : List Nat) (base stp a v mask : Nat)
    (h1 : base ≤ a) (h2 : a ≤ stp) :
    (NewMapper.Map base stp (Mem.ram bs)).Fetch a = (Mem.ram bs).fetch a ∧
    (NewMapper.Map base stp (Mem.masked (Mem.ram bs) mask)).Fetch a =
      (Mem.ram bs).fetch (a &&& mask) ∧
    (NewMapper.Map base stp (Mem.ram bs)).Store a v =
      (if a < bs.length then
        some (NewMapper.Map base stp (Mem.ram (bs.set a (u8 v)))) else none) := by
  have hbank : ∀ m0 : Mem, bankIdx [⟨m0, base, stp⟩] a = some 0 := by
    intro m0
    simp [bankIdx, searchGo, searchLoop, dfltRange, h1, h2]
  refine ⟨?_, ?_, ?_⟩
  · simp [Mapper.Fetch, hbank, NewMapper, Mapper.Map, sortStable, bubble]
  · simp [Mapper.Fetch, hbank, NewMapper, Mapper.Map, sortStable, bubble, Mem.fetch]
  · by_cases hl : a < bs.length
    · simp [Mapper.Store, NewMapper, Mapper.Map, sortStable, bubble, Mem.store,
        hbank, hl, dfltRange]
    · simp [Mapper.Store, NewMapper, Mapper.Map, sortStable, bubble, Mem.store,
        hbank, hl, dfltRange]

/-- Witness for C10 on a 4-byte RAM mapped at `[0x0100, 0x010F]`. -/
theorem mapper_untranslated_witness :
    (0x100 : Nat) ≤ 0x102 ∧ (0x102 : Nat) ≤ 0x10f ∧
      ((NewMapper.Map 0x100 0x10f (Mem.ram [1, 2, 3, 4])).Fetch 0x102 =
          (Mem.ram [1, 2, 3, 4]).fetch 0x102 ∧
        (NewMapper.Map 0x100 0x10f (Mem.masked (Mem.ram [1, 2, 3, 4]) 0x3)).Fetch 0x102 =
          (Mem.ram [1, 2, 3, 4]).fetch (0x102 &&& 0x3) ∧
        (NewMapper.Map 0x100 0x10f (Mem.ram [1, 2, 3, 4])).Store 0x102 9 =
          (if 0x102 < [1, 2, 3, 4].length then
            some (NewMapper.Map 0x100 0x10f (Mem.ram ([1, 2, 3, 4].set 0x102 (u8 9))))
          else none)) :=
  ⟨by decide, by decide,
    mapper_untranslated [1, 2, 3, 4] 0x100 0x10f 0x102 9 0x3 (by decide) (by decide)⟩

end MOS
